import Mathlib

/-! # Razer battery protocol client: frame codec and device session

A shallow embedding of `src_v2_usb/core/razer_protocol.h` (the 90-byte report,
its checksum, the two query builders and the response extractors), of
`src_v2_usb/devices/razer_device.cpp` (the device session: open, close, the
send/receive helpers, transaction-id detection and the battery query), of
`src_v2_usb/devices/device_manager.cpp` (the device catalog, discovery and the
binding of a session to a device) and of the device texts of
`src_v2_usb/ui/tray_app.cpp`, followed by theorems about them.

Conventions of the embedding:
* `uint8_t` is `Fin 256`, `uint16_t` is `Fin 65536`, `int` is `Int` (no
  computation in the embedded code leaves the range of a 32-bit `int`);
* a C++ default argument is passed explicitly by the caller;
* writes to `std::cout` / `std::cerr` and `sleep_for` have no effect on the
  values computed and are left out;
* the libusb calls of a session are the fields of a `Transport`, an arbitrary
  deterministic state machine, and every call made is appended to a log; those
  of the enumeration are the fields of a `Bus`.
-/

namespace razer

/-! ## razer_protocol.h -/

/-- An unsigned 8-bit value (`uint8_t`). -/
abbrev Byte := Fin 256

/-- An unsigned 16-bit value (`uint16_t`). -/
abbrev Word := Fin 65536

/-- Command class `CLASS_MISC`. -/
def CLASS_MISC : Byte := 0x07

/-- Command id `CMD_GET_BATTERY`. -/
def CMD_GET_BATTERY : Byte := 0x80

/-- Command id `CMD_GET_CHARGING_STATUS`. -/
def CMD_GET_CHARGING_STATUS : Byte := 0x84

/-- The packed 90-byte `struct Report`. -/
structure Report where
  status : Byte
  transaction_id : Byte
  remaining_packets : Word
  protocol_type : Byte
  data_size : Byte
  command_class : Byte
  command_id : Byte
  arguments : Fin 80 → Byte
  crc : Byte
  reserved : Byte

/-- The constructor `Report()`: `memset(this, 0, sizeof(Report))`. -/
def Report.zero : Report where
  status := 0
  transaction_id := 0
  remaining_packets := 0
  protocol_type := 0
  data_size := 0
  command_class := 0
  command_id := 0
  arguments := fun _ => 0
  crc := 0
  reserved := 0

/-- The object representation of a `Report`, as read through
`reinterpret_cast<const uint8_t*>`: the fields in declaration order without
padding (`#pragma pack(push, 1)`), the `uint16_t` in the byte order of the
little-endian hosts the program is built for. -/
def Report.bytes (r : Report) : List Byte :=
  [r.status, r.transaction_id,
   Fin.ofNat (r.remaining_packets.val % 256), Fin.ofNat (r.remaining_packets.val / 256),
   r.protocol_type, r.data_size, r.command_class, r.command_id]
  ++ List.ofFn r.arguments
  ++ [r.crc, r.reserved]

/-- The function `calculate_crc`: `crc = 0; for (i = 2; i < 88; i++) crc ^= data[i];`. -/
def calculate_crc (report : Report) : Byte :=
  let data := report.bytes
  (List.range' 2 86).foldl (fun crc i => crc ^^^ data.getD i 0) 0

/-- The function `create_battery_query`. -/
def create_battery_query (transaction_id : Byte) : Report :=
  let report := Report.zero
  let report := { report with status := 0x00 }
  let report := { report with transaction_id := transaction_id }
  let report := { report with data_size := 0x02 }
  let report := { report with command_class := CLASS_MISC }
  let report := { report with command_id := CMD_GET_BATTERY }
  let report := { report with crc := calculate_crc report }
  report

/-- The function `create_charging_query`. -/
def create_charging_query (transaction_id : Byte) : Report :=
  let report := Report.zero
  let report := { report with status := 0x00 }
  let report := { report with transaction_id := transaction_id }
  let report := { report with data_size := 0x02 }
  let report := { report with command_class := CLASS_MISC }
  let report := { report with command_id := CMD_GET_CHARGING_STATUS }
  let report := { report with crc := calculate_crc report }
  report

/-- The function `get_battery_raw`; `-1` is the "no data" signal. -/
def get_battery_raw (response : Report) : Int :=
  if response.status ≠ 0x02 then -1
  else if response.data_size < 2 then -1
  else ((response.arguments 1).val : Int)

/-- The function `get_battery_percent`; the C++ `/` on `int` truncates
towards zero (`Int.tdiv`). -/
def get_battery_percent (response : Report) : Int :=
  let raw := get_battery_raw response
  if raw < 0 then -1
  else (raw * 100).tdiv 255

/-- The function `get_charging_status`. -/
def get_charging_status (response : Report) : Bool :=
  if response.command_class = CLASS_MISC ∧
     response.command_id = CMD_GET_CHARGING_STATUS ∧
     response.data_size ≥ 2 then
    decide (response.arguments 1 = 0x01)
  else false

/-! ## razer_device.h -/

/-- The struct `BatteryStatus`. -/
structure BatteryStatus where
  percentage : Int
  is_charging : Bool
  is_valid : Bool
deriving DecidableEq, Repr

/-- The default constructor `BatteryStatus()`. -/
def BatteryStatus.default : BatteryStatus := ⟨0, false, false⟩

/-- The constructor `BatteryStatus(int pct, bool charging)`. -/
def BatteryStatus.mk2 (pct : Int) (charging : Bool) : BatteryStatus := ⟨pct, charging, true⟩

/-- The struct `DeviceInfo`. -/
structure DeviceInfo where
  vid : Word
  pid : Word
  serial : String
  product_name : String
  manufacturer : String
  transaction_id : Byte
deriving DecidableEq, Repr

/-- The constructor `DeviceInfo()`. -/
def DeviceInfo.default : DeviceInfo := ⟨0, 0, "", "", "", 0x1f⟩

/-! ## The libusb calls of a session -/

/-- The value of a non-null `libusb_device_handle*`. -/
abbrev Handle := Nat

/-- The value of a `libusb_device*`. -/
abbrev DevicePtr := Nat

/-- The libusb return code `LIBUSB_SUCCESS`. -/
def LIBUSB_SUCCESS : Int := 0

/-- The libusb calls a session makes, as they are logged. The two control
transfers are `libusb_control_transfer` with `REQUEST_TYPE_OUT` /
`USB_REQ_SET_REPORT` and with `REQUEST_TYPE_IN` / `USB_REQ_GET_REPORT`. -/
inductive UsbCall where
  | libusb_open (device : DevicePtr)
  | libusb_kernel_driver_active
  | libusb_detach_kernel_driver
  | libusb_claim_interface
  | libusb_release_interface
  | libusb_attach_kernel_driver
  | libusb_close
  | control_transfer_out (data : Report)
  | control_transfer_in

/-- The behaviour of the USB transport: a deterministic machine over a state
`σ`. Each field is one libusb call and returns the call's result code, what it
writes through its out-parameters, and the next state. -/
structure Transport (σ : Type) where
  /-- The call `libusb_open(device, &handle)`: the result code and the handle
  written on success. -/
  libusb_open : σ → DevicePtr → Int × Handle × σ
  libusb_kernel_driver_active : σ → Int × σ
  libusb_detach_kernel_driver : σ → Int × σ
  libusb_claim_interface : σ → Int × σ
  libusb_release_interface : σ → Int × σ
  libusb_attach_kernel_driver : σ → Int × σ
  libusb_close : σ → σ
  /-- The outbound control transfer carrying the 90 bytes of a report. -/
  control_transfer_out : σ → Report → Int × σ
  /-- The inbound control transfer into a zeroed 90-byte buffer: the result
  code and the buffer as the transfer leaves it. -/
  control_transfer_in : σ → Int × Report × σ

/-- The transport state together with the log of the calls made so far. -/
structure World (σ : Type) where
  usb : σ
  log : List UsbCall

/-- The private state of a `RazerDevice`. -/
structure RazerDevice where
  device : DevicePtr
  handle : Option Handle
  device_info : DeviceInfo
  kernel_driver_detached : Bool
  interface_number : Int

/-- The constructor `RazerDevice(device, info)`. -/
def RazerDevice.new (device : DevicePtr) (info : DeviceInfo) : RazerDevice where
  device := device
  handle := none
  device_info := info
  kernel_driver_detached := false
  interface_number := 0

/-- The accessor `is_open`. -/
def RazerDevice.is_open (self : RazerDevice) : Bool := self.handle.isSome

/-! ## razer_device.cpp -/

section Session
variable {σ : Type}

/-- The method `RazerDevice::open`. -/
def RazerDevice.open (T : Transport σ) (self : RazerDevice) (w : World σ) :
    Bool × RazerDevice × World σ :=
  match self.handle with
  | some _ => (true, self, w)
  | none =>
    let o := T.libusb_open w.usb self.device
    let w1 : World σ := ⟨o.2.2, w.log ++ [UsbCall.libusb_open self.device]⟩
    if o.1 ≠ LIBUSB_SUCCESS then (false, self, w1)
    else
      let self1 := { self with handle := some o.2.1 }
      let a := T.libusb_kernel_driver_active w1.usb
      let w2 : World σ := ⟨a.2, w1.log ++ [UsbCall.libusb_kernel_driver_active]⟩
      let k : RazerDevice × World σ := if a.1 = 1 then
          let d := T.libusb_detach_kernel_driver w2.usb
          let w3 : World σ := ⟨d.2, w2.log ++ [UsbCall.libusb_detach_kernel_driver]⟩
          if d.1 = LIBUSB_SUCCESS then ({ self1 with kernel_driver_detached := true }, w3)
          else (self1, w3)
        else (self1, w2)
      let c := T.libusb_claim_interface k.2.usb
      let w5 : World σ := ⟨c.2, k.2.log ++ [UsbCall.libusb_claim_interface]⟩
      if c.1 ≠ LIBUSB_SUCCESS then
        (false, { k.1 with handle := none },
          ⟨T.libusb_close w5.usb, w5.log ++ [UsbCall.libusb_close]⟩)
      else (true, k.1, w5)

/-- The method `RazerDevice::close`. -/
def RazerDevice.close (T : Transport σ) (self : RazerDevice) (w : World σ) :
    RazerDevice × World σ :=
  match self.handle with
  | none => (self, w)
  | some _ =>
    let w1 : World σ :=
      ⟨(T.libusb_release_interface w.usb).2, w.log ++ [UsbCall.libusb_release_interface]⟩
    let k : RazerDevice × World σ := if self.kernel_driver_detached then
        ({ self with kernel_driver_detached := false },
          ⟨(T.libusb_attach_kernel_driver w1.usb).2,
            w1.log ++ [UsbCall.libusb_attach_kernel_driver]⟩)
      else (self, w1)
    ({ k.1 with handle := none }, ⟨T.libusb_close k.2.usb, k.2.log ++ [UsbCall.libusb_close]⟩)

/-- The method `RazerDevice::send_report`. -/
def RazerDevice.send_report (T : Transport σ) (self : RazerDevice) (report : Report)
    (w : World σ) : Bool × World σ :=
  match self.handle with
  | none => (false, w)
  | some _ =>
    let t := T.control_transfer_out w.usb report
    let w1 : World σ := ⟨t.2, w.log ++ [UsbCall.control_transfer_out report]⟩
    if t.1 < 0 then (false, w1) else (true, w1)

/-- The method `RazerDevice::receive_report`. -/
def RazerDevice.receive_report (T : Transport σ) (self : RazerDevice) (w : World σ) :
    Option Report × World σ :=
  match self.handle with
  | none => (none, w)
  | some _ =>
    let t := T.control_transfer_in w.usb
    let w1 : World σ := ⟨t.2.2, w.log ++ [UsbCall.control_transfer_in]⟩
    if t.1 < 0 then (none, w1) else (some t.2.1, w1)

/-- The candidate ids `ids[]` of `detect_transaction_id`. -/
def ids : List Byte := [0x1f, 0x3f, 0x9f, 0xff]

/-- The range-for loop of `detect_transaction_id` over the candidates still to
try: `some id` when the loop returns `id` from its body, `none` when it runs
to its end. -/
def RazerDevice.detect_loop (T : Transport σ) (self : RazerDevice) :
    List Byte → World σ → Option Byte × World σ
  | [], w => (none, w)
  | id :: rest, w =>
    let query := create_battery_query id
    let s := self.send_report T query w
    if s.1 then
      let r := self.receive_report T s.2
      match r.1 with
      | some response =>
        let status := response.status
        let battery := get_battery_raw response
        if status = 0x02 ∧ battery ≥ 0 then (some id, r.2)
        else RazerDevice.detect_loop T self rest r.2
      | none => RazerDevice.detect_loop T self rest r.2
    else RazerDevice.detect_loop T self rest s.2

/-- The method `RazerDevice::detect_transaction_id`. -/
def RazerDevice.detect_transaction_id (T : Transport σ) (self : RazerDevice) (w : World σ) :
    Byte × World σ :=
  let l := self.detect_loop T ids w
  match l.1 with
  | some id => (id, l.2)
  | none => (0x1f, l.2)

/-- The method `RazerDevice::get_battery_status`. -/
def RazerDevice.get_battery_status (T : Transport σ) (self : RazerDevice) (w : World σ) :
    Option BatteryStatus × RazerDevice × World σ :=
  let o := if self.handle.isNone then self.open T w else (true, self, w)
  if ¬ o.1 then (none, o.2.1, o.2.2)
  else
    let n : RazerDevice × World σ := if o.2.1.device_info.transaction_id = 0x1f then
        let d := o.2.1.detect_transaction_id T o.2.2
        ({ o.2.1 with device_info := { o.2.1.device_info with transaction_id := d.1 } }, d.2)
      else (o.2.1, o.2.2)
    let battery_query := create_battery_query n.1.device_info.transaction_id
    let s := n.1.send_report T battery_query n.2
    if ¬ s.1 then (none, n.1, s.2)
    else
      let battery_response := n.1.receive_report T s.2
      match battery_response.1 with
      | none => (none, n.1, battery_response.2)
      | some resp =>
        let percentage := get_battery_percent resp
        if percentage < 0 then (none, n.1, battery_response.2)
        else
          let is_charging := false
          (some (BatteryStatus.mk2 percentage is_charging), n.1, battery_response.2)

/-! ## Notions used to state the properties of a session -/

/-- A response reporting the raw level `r` successfully: `status = 0x02`,
`data_size >= 2` and `arguments[1] = r`. -/
def Report.Answers (resp : Report) (r : Byte) : Prop :=
  resp.status = 0x02 ∧ 2 ≤ resp.data_size ∧ resp.arguments 1 = r

instance (resp : Report) (r : Byte) : Decidable (resp.Answers r) := by
  unfold Report.Answers
  infer_instance

/-- A device that accepts the transaction id `t` and answers every battery
query carrying it with the raw level `r`: in every state the outbound transfer
of `create_battery_query t` succeeds and the inbound transfer that follows it
succeeds with a report answering `r`. -/
def Transport.AcceptsWith (T : Transport σ) (t r : Byte) : Prop :=
  ∀ s : σ,
    0 ≤ (T.control_transfer_out s (create_battery_query t)).1 ∧
    0 ≤ (T.control_transfer_in (T.control_transfer_out s (create_battery_query t)).2).1 ∧
    (T.control_transfer_in (T.control_transfer_out s (create_battery_query t)).2).2.1.Answers r

/-- The session and the world in which `get_battery_status` reaches its final
battery exchange ("Query battery level"), after the conditional `open()` and
the conditional transaction-id detection; `none` when `open()` failed. -/
def RazerDevice.query_entry (T : Transport σ) (self : RazerDevice) (w : World σ) :
    Option (RazerDevice × World σ) :=
  let o := if self.handle.isNone then self.open T w else (true, self, w)
  if ¬ o.1 then none
  else if o.2.1.device_info.transaction_id = 0x1f then
    let d := o.2.1.detect_transaction_id T o.2.2
    some ({ o.2.1 with device_info := { o.2.1.device_info with transaction_id := d.1 } }, d.2)
  else some (o.2.1, o.2.2)

/-- One probe of the detection with candidate `id`: the battery query with
that id is sent; if the send succeeds a response is received; the probe
succeeds when a response was received that has `status == 0x02` and a
non-negative raw battery value. Returns the outcome and the world after it. -/
def RazerDevice.probe (T : Transport σ) (self : RazerDevice) (id : Byte) (w : World σ) :
    Bool × World σ :=
  let s := self.send_report T (create_battery_query id) w
  if s.1 then
    let r := self.receive_report T s.2
    match r.1 with
    | some response => (decide (response.status = 0x02 ∧ get_battery_raw response ≥ 0), r.2)
    | none => (false, r.2)
  else (false, s.2)

/-- The world in which the candidate at position `k` of `ids` is probed when
the candidates before it have been probed in order, starting from `w`. -/
def RazerDevice.world_at (T : Transport σ) (self : RazerDevice) (w : World σ) : Nat → World σ
  | 0 => w
  | k + 1 => (self.probe T (ids.getD k 0) (RazerDevice.world_at T self w k)).2

/-- A simulated device. Its state is the transaction id of the last report
written to it. It can always be opened and claimed and has no kernel driver
attached; it takes every outbound transfer; an inbound transfer after a report
carrying the id `accepted` returns `status = 0x02`, `data_size = 2` and the raw
level `level` in `arguments[1]`, and after any other report a frame with
status `0x05`. -/
def simDevice (accepted level : Byte) : Transport (Option Byte) where
  libusb_open := fun s _ => (0, 1, s)
  libusb_kernel_driver_active := fun s => (0, s)
  libusb_detach_kernel_driver := fun s => (0, s)
  libusb_claim_interface := fun s => (0, s)
  libusb_release_interface := fun s => (0, s)
  libusb_attach_kernel_driver := fun s => (0, s)
  libusb_close := fun s => s
  control_transfer_out := fun _ report => (90, some report.transaction_id)
  control_transfer_in := fun s =>
    if s = some accepted then
      (90, { Report.zero with status := 0x02, transaction_id := accepted, data_size := 2,
                              command_class := CLASS_MISC, command_id := CMD_GET_BATTERY,
                              arguments := fun i => if i = 1 then level else 0 }, s)
    else (90, { Report.zero with status := 0x05 }, s)

/-- A stub transport without state, fixed by the result codes of
`libusb_open`, `libusb_kernel_driver_active`, `libusb_detach_kernel_driver` and
`libusb_claim_interface`; it takes every outbound transfer and answers every
inbound one with `status = 0x02`, `data_size = 2` and raw level 128. -/
def stubDevice (open_result driver_active detach_result claim_result : Int) :
    Transport Unit where
  libusb_open := fun s _ => (open_result, 1, s)
  libusb_kernel_driver_active := fun s => (driver_active, s)
  libusb_detach_kernel_driver := fun s => (detach_result, s)
  libusb_claim_interface := fun s => (claim_result, s)
  libusb_release_interface := fun s => (0, s)
  libusb_attach_kernel_driver := fun s => (0, s)
  libusb_close := fun s => s
  control_transfer_out := fun s _ => (90, s)
  control_transfer_in := fun s =>
    (90, { Report.zero with status := 0x02, data_size := 2,
                            arguments := fun i => if i = 1 then 128 else 0 }, s)

/-- Whether a logged call is a control transfer, in either direction. -/
def UsbCall.is_control_transfer : UsbCall → Bool
  | UsbCall.control_transfer_out _ => true
  | UsbCall.control_transfer_in => true
  | _ => false

/-- The reports carried by the outbound control transfers of a log, in order. -/
def sent_reports (log : List UsbCall) : List Report :=
  log.filterMap fun c =>
    match c with
    | UsbCall.control_transfer_out r => some r
    | _ => none

/-- The calls a world `after` has logged beyond those of the world `before` it
grew from. -/
def World.calls_since (after before : World σ) : List UsbCall :=
  after.log.drop before.log.length

/-- The XOR of the bytes of the fields `transaction_id` through
`arguments[79]`, as the data model words the checksum: `transaction_id`, the
two bytes of `remaining_packets`, `protocol_type`, `data_size`,
`command_class`, `command_id` and the 80 arguments. -/
def xor_transaction_id_through_arguments (r : Report) : Byte :=
  ([r.transaction_id,
    Fin.ofNat (r.remaining_packets.val % 256), Fin.ofNat (r.remaining_packets.val / 256),
    r.protocol_type, r.data_size, r.command_class, r.command_id]
    ++ List.ofFn r.arguments).foldl (fun crc b => crc ^^^ b) 0

/-- The XOR of the bytes of the fields `remaining_packets` through
`arguments[79]`: the two bytes of `remaining_packets`, `protocol_type`,
`data_size`, `command_class`, `command_id` and the 80 arguments. -/
def xor_remaining_packets_through_arguments (r : Report) : Byte :=
  ([Fin.ofNat (r.remaining_packets.val % 256), Fin.ofNat (r.remaining_packets.val / 256),
    r.protocol_type, r.data_size, r.command_class, r.command_id]
    ++ List.ofFn r.arguments).foldl (fun crc b => crc ^^^ b) 0

/-- A transport that behaves as `T` except that every report an inbound
control transfer delivers is passed through `f` first. -/
def Transport.tamper_responses (T : Transport σ) (f : Report → Report) : Transport σ :=
  { T with
    control_transfer_in := fun s =>
      ((T.control_transfer_in s).1, f (T.control_transfer_in s).2.1,
        (T.control_transfer_in s).2.2) }

/-- Two reports differ at most in the `transaction_id`, `command_class`,
`command_id`, `crc` and `reserved` bytes. -/
def Report.SamePayload (r r' : Report) : Prop :=
  r.status = r'.status ∧ r.remaining_packets = r'.remaining_packets ∧
  r.protocol_type = r'.protocol_type ∧ r.data_size = r'.data_size ∧
  r.arguments = r'.arguments

/-- Two reports differ at most in the `status` byte. -/
def Report.SameButStatus (r r' : Report) : Prop :=
  r.transaction_id = r'.transaction_id ∧ r.remaining_packets = r'.remaining_packets ∧
  r.protocol_type = r'.protocol_type ∧ r.data_size = r'.data_size ∧
  r.command_class = r'.command_class ∧ r.command_id = r'.command_id ∧
  r.arguments = r'.arguments ∧ r.crc = r'.crc ∧ r.reserved = r'.reserved

/-- A transport with a kernel driver and an interface that is busy at first.
Its state is whether the kernel driver is attached and how many interface
claims were made so far: the driver is active while attached, detaching and
attaching always succeed, and the first claim fails with `-6` while later ones
succeed. -/
def busyOnceDevice : Transport (Bool × Nat) where
  libusb_open := fun s _ => (0, 1, s)
  libusb_kernel_driver_active := fun s => (if s.1 then 1 else 0, s)
  libusb_detach_kernel_driver := fun s => (0, (false, s.2))
  libusb_claim_interface := fun s => (if s.2 = 0 then -6 else 0, (s.1, s.2 + 1))
  libusb_release_interface := fun s => (0, s)
  libusb_attach_kernel_driver := fun s => (0, (true, s.2))
  libusb_close := fun s => s
  control_transfer_out := fun s _ => (90, s)
  control_transfer_in := fun s =>
    (90, { Report.zero with status := 0x02, data_size := 2,
                            arguments := fun i => if i = 1 then 128 else 0 }, s)

/-- A sequence of `get_battery_status` calls on one session. Before each call
the transport state may have changed on its own; `envs` lists those changes,
the one before the latest call first. Returns the session and the world after
the last call. -/
def RazerDevice.poll (T : Transport σ) (self : RazerDevice) (w : World σ) :
    List (σ → σ) → RazerDevice × World σ
  | [] => (self, w)
  | env :: earlier =>
    let r := RazerDevice.poll T self w earlier
    (r.1.get_battery_status T ⟨env r.2.usb, r.2.log⟩).2

/-- The reports of a log are battery queries built for candidate ids. -/
def OnlyCandidateQueries (e : List UsbCall) : Prop :=
  ∀ r ∈ sent_reports e, ∃ t ∈ ids, r = create_battery_query t

/-! ## device_manager.h and device_manager.cpp -/

/-- The constant `RAZER_VID`. -/
def RAZER_VID : Word := 0x1532

/-- The struct `KnownDevice`. -/
structure KnownDevice where
  pid : Word
  name : String
  type : String
deriving DecidableEq, Repr

/-- The table `KNOWN_DEVICES`. -/
def KNOWN_DEVICES : List KnownDevice :=
  [⟨0x00A4, "Razer Mouse Dock Pro", "accessory"⟩,
   ⟨0x00D6, "Razer Basilisk V3 Pro (Wired)", "mouse"⟩,
   ⟨0x00D7, "Razer Basilisk V3 Pro (Wireless)", "mouse"⟩,
   ⟨0x0084, "Razer Basilisk V3", "mouse"⟩,
   ⟨0x0088, "Razer Basilisk V3 X HyperSpeed", "mouse"⟩,
   ⟨0x008C, "Razer DeathAdder V3 Pro (Wired)", "mouse"⟩,
   ⟨0x008D, "Razer DeathAdder V3 Pro (Wireless)", "mouse"⟩,
   ⟨0x0098, "Razer Viper V3 Pro (Wired)", "mouse"⟩,
   ⟨0x009A, "Razer Viper V3 Pro (Wireless)", "mouse"⟩,
   ⟨0x024E, "Razer BlackWidow V3", "keyboard"⟩,
   ⟨0x0241, "Razer BlackWidow V3 Pro (Wired)", "keyboard"⟩,
   ⟨0x0258, "Razer BlackWidow V3 Pro (Wireless)", "keyboard"⟩,
   ⟨0x026D, "Razer BlackWidow V4 Pro", "keyboard"⟩,
   ⟨0x0C3B, "Razer Firefly V2 Pro", "mousemat"⟩,
   ⟨0x0C3C, "Razer Firefly V2", "mousemat"⟩,
   ⟨0x0527, "Razer BlackShark V2 Pro (2023)", "headset"⟩,
   ⟨0x0510, "Razer Kraken V3 Pro", "headset"⟩]

/-- The constant `KNOWN_DEVICES_COUNT`. -/
def KNOWN_DEVICES_COUNT : Nat := KNOWN_DEVICES.length

/-- The fields of `libusb_device_descriptor` that the program reads. -/
structure DeviceDescriptor where
  idVendor : Word
  idProduct : Word
  iManufacturer : Byte
  iProduct : Byte
  iSerialNumber : Byte
deriving DecidableEq, Repr

/-- The behaviour of the USB bus during enumeration: a deterministic machine
over a state `σ`, one field per libusb call, each returning the result code,
what the call writes through its out-parameters, and the next state. -/
structure Bus (σ : Type) where
  /-- The call `libusb_get_device_list`: the count and the array of that many
  devices. -/
  libusb_get_device_list : σ → Int × List DevicePtr × σ
  libusb_get_device_descriptor : σ → DevicePtr → Int × DeviceDescriptor × σ
  libusb_open : σ → DevicePtr → Int × Handle × σ
  /-- The call `libusb_get_string_descriptor_ascii`: the result (the number of
  bytes written when positive) and the text in the buffer. -/
  libusb_get_string_descriptor_ascii : σ → Handle → Byte → Int × String × σ
  libusb_close : σ → Handle → σ
  libusb_free_device_list : σ → σ

/-- The private state of a `DeviceManager`: the libusb context, null until
`initialize` succeeds. -/
structure DeviceManager where
  context : Option Nat

/-- The loop of `get_device_name` over the entries still to compare. -/
def DeviceManager.get_device_name_from : List KnownDevice → Word → String
  | [], _ => "Unknown Razer Device"
  | d :: rest, pid => if d.pid = pid then d.name else DeviceManager.get_device_name_from rest pid

/-- The static method `DeviceManager::get_device_name`. -/
def DeviceManager.get_device_name (pid : Word) : String :=
  DeviceManager.get_device_name_from KNOWN_DEVICES pid

/-- The loop of `get_device_type` over the entries still to compare. -/
def DeviceManager.get_device_type_from : List KnownDevice → Word → String
  | [], _ => "unknown"
  | d :: rest, pid => if d.pid = pid then d.type else DeviceManager.get_device_type_from rest pid

/-- The static method `DeviceManager::get_device_type`. -/
def DeviceManager.get_device_type (pid : Word) : String :=
  DeviceManager.get_device_type_from KNOWN_DEVICES pid

/-- The method `DeviceManager::read_string_descriptor`. -/
def DeviceManager.read_string_descriptor (B : Bus σ) (handle : Handle) (index : Byte) (s : σ) :
    String × σ :=
  let r := B.libusb_get_string_descriptor_ascii s handle index
  if r.1 > 0 then (String.mk (r.2.1.data.take r.1.toNat), r.2.2)
  else ("", r.2.2)

/-- The method `DeviceManager::read_device_info`. -/
def DeviceManager.read_device_info (B : Bus σ) (device : DevicePtr) (s : σ) : DeviceInfo × σ :=
  let info := DeviceInfo.default
  let d := B.libusb_get_device_descriptor s device
  if d.1 ≠ LIBUSB_SUCCESS then (info, d.2.2)
  else
    let desc := d.2.1
    let info := { info with vid := desc.idVendor }
    let info := { info with pid := desc.idProduct }
    let o := B.libusb_open d.2.2 device
    if o.1 ≠ LIBUSB_SUCCESS then
      let info := { info with product_name := DeviceManager.get_device_name info.pid }
      let info := { info with manufacturer := "Razer Inc." }
      (info, o.2.2)
    else
      let handle := o.2.1
      let k1 : DeviceInfo × σ := if desc.iSerialNumber > 0 then
          let r := DeviceManager.read_string_descriptor B handle desc.iSerialNumber o.2.2
          ({ info with serial := r.1 }, r.2)
        else (info, o.2.2)
      let k2 : DeviceInfo × σ := if desc.iProduct > 0 then
          let r := DeviceManager.read_string_descriptor B handle desc.iProduct k1.2
          ({ k1.1 with product_name := r.1 }, r.2)
        else k1
      let k3 : DeviceInfo × σ := if desc.iManufacturer > 0 then
          let r := DeviceManager.read_string_descriptor B handle desc.iManufacturer k2.2
          ({ k2.1 with manufacturer := r.1 }, r.2)
        else k2
      let info := if k3.1.product_name = "" then
          { k3.1 with product_name := DeviceManager.get_device_name k3.1.pid }
        else k3.1
      (info, B.libusb_close k3.2 handle)

/-- The bus state in which `read_device_info` reads the product string of a
device that it could open: the state the descriptor read and `libusb_open`
leave, followed by the read of the serial string when the device has one. -/
def DeviceManager.product_read_state (B : Bus σ) (device : DevicePtr) (s : σ) : σ :=
  let d := B.libusb_get_device_descriptor s device
  let o := B.libusb_open d.2.2 device
  if d.2.1.iSerialNumber > 0 then
    (DeviceManager.read_string_descriptor B o.2.1 d.2.1.iSerialNumber o.2.2).2
  else o.2.2

/-- The product string `read_device_info` reads from a device that it could
open and that has one: read through the handle `libusb_open` returned, in the
state `product_read_state`. -/
def DeviceManager.product_string_read (B : Bus σ) (device : DevicePtr) (s : σ) : String :=
  let d := B.libusb_get_device_descriptor s device
  let o := B.libusb_open d.2.2 device
  (DeviceManager.read_string_descriptor B o.2.1 d.2.1.iProduct
    (DeviceManager.product_read_state B device s)).1

/-- The loop of `discover_devices` over the devices still to scan, with the
vector `devices` collected so far. -/
def DeviceManager.discover_loop (B : Bus σ) :
    List DevicePtr → List DeviceInfo → σ → List DeviceInfo × σ
  | [], devices, s => (devices, s)
  | device :: rest, devices, s =>
    let d := B.libusb_get_device_descriptor s device
    if d.1 ≠ LIBUSB_SUCCESS then DeviceManager.discover_loop B rest devices d.2.2
    else if d.2.1.idVendor ≠ RAZER_VID then DeviceManager.discover_loop B rest devices d.2.2
    else
      let r := DeviceManager.read_device_info B device d.2.2
      if r.1.vid = RAZER_VID then DeviceManager.discover_loop B rest (devices ++ [r.1]) r.2
      else DeviceManager.discover_loop B rest devices r.2

/-- The method `DeviceManager::discover_devices`. -/
def DeviceManager.discover_devices (B : Bus σ) (self : DeviceManager) (s : σ) :
    List DeviceInfo × σ :=
  match self.context with
  | none => ([], s)
  | some _ =>
    let l := B.libusb_get_device_list s
    if l.1 < 0 then ([], l.2.2)
    else
      let r := DeviceManager.discover_loop B l.2.1 [] l.2.2
      (r.1, B.libusb_free_device_list r.2)

/-- The loop of `create_device` over the devices still to compare: the session
made for the first match, if any. -/
def DeviceManager.create_loop (B : Bus σ) (info : DeviceInfo) :
    List DevicePtr → σ → Option RazerDevice × σ
  | [], s => (none, s)
  | device :: rest, s =>
    let r := DeviceManager.read_device_info B device s
    if r.1.vid = info.vid ∧ r.1.pid = info.pid ∧ r.1.serial = info.serial then
      (some (RazerDevice.new device info), r.2)
    else DeviceManager.create_loop B info rest r.2

/-- The method `DeviceManager::create_device`; `none` is the null pointer. -/
def DeviceManager.create_device (B : Bus σ) (self : DeviceManager) (info : DeviceInfo) (s : σ) :
    Option RazerDevice × σ :=
  match self.context with
  | none => (none, s)
  | some _ =>
    let l := B.libusb_get_device_list s
    if l.1 < 0 then (none, l.2.2)
    else
      let r := DeviceManager.create_loop B info l.2.1 l.2.2
      (r.1, B.libusb_free_device_list r.2)

/-- An attached device of a fake bus: its device descriptor, the result of
opening it, and its string descriptors by index. -/
structure FakeDevice where
  descriptor : DeviceDescriptor
  open_result : Int
  strings : Byte → String

/-- A fake bus without state that exposes the devices `devs`; the pointer and
the handle of a device are its position in the list. -/
def fakeBus (devs : List FakeDevice) : Bus Unit where
  libusb_get_device_list := fun s => (devs.length, List.range devs.length, s)
  libusb_get_device_descriptor := fun s d =>
    match devs[d]? with
    | some fd => (0, fd.descriptor, s)
    | none => (-4, ⟨0, 0, 0, 0, 0⟩, s)
  libusb_open := fun s d =>
    match devs[d]? with
    | some fd => (fd.open_result, d, s)
    | none => (-4, d, s)
  libusb_get_string_descriptor_ascii := fun s h index =>
    match devs[h]? with
    | some fd => (((fd.strings index).length : Int), fd.strings index, s)
    | none => (-4, "", s)
  libusb_close := fun s _ => s
  libusb_free_device_list := fun s => s

/-- A fake wireless mouse (product id `0x009A`) with vendor id `vid`, the
serial `serial` at string index 3 and no other strings. -/
def fakeMouse (vid : Word) (open_result : Int) (serial : String) : FakeDevice where
  descriptor := ⟨vid, 0x009A, 1, 2, 3⟩
  open_result := open_result
  strings := fun i => if i = 3 then serial else ""

/-- A fake dock (product id `0x00A4`) that opens and exposes the product
string `product` at string index 2 and no other strings. -/
def fakeDock (product : String) : FakeDevice where
  descriptor := ⟨0x1532, 0x00A4, 1, 2, 3⟩
  open_result := 0
  strings := fun i => if i = 2 then product else ""

/-- The comparison of `create_device`: the identity read from a device and the
requested identity agree in vendor id, product id and serial. -/
def DeviceInfo.SameTriple (current info : DeviceInfo) : Prop :=
  current.vid = info.vid ∧ current.pid = info.pid ∧ current.serial = info.serial

instance (current info : DeviceInfo) : Decidable (current.SameTriple info) := by
  unfold DeviceInfo.SameTriple
  infer_instance

/-! ## tray_app.cpp -/

/-- The device state of a `TrayApp`: the vectors `devices` and
`battery_statuses`, which are filled together and have the same size. -/
structure TrayApp where
  devices : List RazerDevice
  battery_statuses : List BatteryStatus

/-- The name shown for a device: its product name, replaced by "Razer Mouse"
for the Mouse Dock Pro (product id `0x00A4`). The widening of the name to a
`std::wstring` keeps its characters. -/
def TrayApp.shown_name (device : RazerDevice) : String :=
  let name := device.device_info.product_name
  let wname := name
  if device.device_info.pid = 0x00A4 then "Razer Mouse" else wname

/-- The method `TrayApp::discover_devices`, over the identities still to bind. -/
def TrayApp.discover_loop (B : Bus σ) (manager : DeviceManager) :
    List DeviceInfo → TrayApp → σ → TrayApp × σ
  | [], self, s => (self, s)
  | info :: rest, self, s =>
    let c := manager.create_device B info s
    match c.1 with
    | some device =>
      TrayApp.discover_loop B manager rest
        { devices := self.devices ++ [device],
          battery_statuses := self.battery_statuses ++ [BatteryStatus.default] } c.2
    | none => TrayApp.discover_loop B manager rest self c.2

/-- The method `TrayApp::discover_devices`. -/
def TrayApp.discover_devices (B : Bus σ) (manager : DeviceManager) (self : TrayApp) (s : σ) :
    TrayApp × σ :=
  let device_infos := manager.discover_devices B s
  TrayApp.discover_loop B manager device_infos.1 self device_infos.2

/-- The loop of `TrayApp::refresh_battery_status` over the devices and their
stored statuses still to refresh. -/
def TrayApp.refresh_loop (T : Transport σ) :
    List RazerDevice → List BatteryStatus → World σ →
      (List RazerDevice × List BatteryStatus) × World σ
  | device :: devices, stored :: statuses, w =>
    let status := device.get_battery_status T w
    let rest := TrayApp.refresh_loop T devices statuses status.2.2
    ((status.2.1 :: rest.1.1,
      (match status.1 with
        | some fresh => fresh
        | none => stored) :: rest.1.2), rest.2)
  | devices, statuses, w => ((devices, statuses), w)

/-- The method `TrayApp::refresh_battery_status`, before it redraws the icon. -/
def TrayApp.refresh_battery_status (T : Transport σ) (self : TrayApp) (w : World σ) :
    TrayApp × World σ :=
  let r := TrayApp.refresh_loop T self.devices self.battery_statuses w
  ({ devices := r.1.1, battery_statuses := r.1.2 }, r.2)

/-- The method `TrayApp::generate_tooltip`. -/
def TrayApp.generate_tooltip (self : TrayApp) : String :=
  match self.devices, self.battery_statuses with
  | first :: others, status :: _ =>
    let oss := TrayApp.shown_name first ++ ": " ++ toString status.percentage ++ "%"
    let oss := if status.is_charging then oss ++ " (Charging)" else oss
    if (first :: others).length > 1 then
      oss ++ "\n+" ++ toString ((first :: others).length - 1) ++ " more device(s)"
    else oss
  | _, _ => "Razer Tray - No devices"

/-- The text of the menu entry that `TrayApp::show_context_menu` appends for
one device and its stored status. -/
def TrayApp.menu_entry (device : RazerDevice) (status : BatteryStatus) : String :=
  let oss := TrayApp.shown_name device ++ " - " ++ toString status.percentage ++ "%"
  if status.is_charging then oss ++ " (Charging)" else oss

/-- The device entries of the menu built by `TrayApp::show_context_menu`. -/
def TrayApp.menu_device_entries (self : TrayApp) : List String :=
  match self.devices, self.battery_statuses with
  | _ :: _, _ :: _ => List.zipWith TrayApp.menu_entry self.devices self.battery_statuses
  | _, _ => []

/-! ## Notions used to state when a session has detached the kernel driver -/

/-- A call that the owner of a session makes on it. -/
inductive SessionCall where
  | open_call
  | close_call
  | battery_call

/-- The session and the world after the call `c`. -/
def RazerDevice.call (T : Transport σ) (c : SessionCall) (self : RazerDevice) (w : World σ) :
    RazerDevice × World σ :=
  match c with
  | SessionCall.open_call => (self.open T w).2
  | SessionCall.close_call => self.close T w
  | SessionCall.battery_call => (self.get_battery_status T w).2

/-- The session and the world after a history of calls on the session
constructed for `device` and `info`. Before each call the transport state may
have changed on its own; the history lists those changes and the calls, the
latest first. -/
def RazerDevice.history (T : Transport σ) (device : DevicePtr) (info : DeviceInfo)
    (w : World σ) : List ((σ → σ) × SessionCall) → RazerDevice × World σ
  | [] => (RazerDevice.new device info, w)
  | step :: earlier =>
    let r := RazerDevice.history T device info w earlier
    r.1.call T step.2 ⟨step.1 r.2.usb, r.2.log⟩

/-- Whether the call `c` on `self` in the world `w` detaches the kernel driver:
it is a call that runs `open()` (`open()` itself or `get_battery_status`) on a
Closed session, the handle is acquired, the driver is found active and the
detach succeeds. -/
def RazerDevice.call_detaches (T : Transport σ) (c : SessionCall) (self : RazerDevice)
    (w : World σ) : Bool :=
  match c with
  | SessionCall.close_call => false
  | _ =>
    decide (self.is_open = false ∧
      (T.libusb_open w.usb self.device).1 = LIBUSB_SUCCESS ∧
      (T.libusb_kernel_driver_active (T.libusb_open w.usb self.device).2.2).1 = 1 ∧
      (T.libusb_detach_kernel_driver
        (T.libusb_kernel_driver_active (T.libusb_open w.usb self.device).2.2).2).1
          = LIBUSB_SUCCESS)

/-- Whether a logged call is `libusb_attach_kernel_driver`. -/
def UsbCall.is_attach : UsbCall → Bool
  | UsbCall.libusb_attach_kernel_driver => true
  | _ => false

/-- Whether, after a history of calls, this session has detached the kernel
driver during an `open()` and has not reattached it since: it becomes true
when a call detaches the driver, and false again when a `close()` calls
`libusb_attach_kernel_driver`. -/
def RazerDevice.detached_by_session (T : Transport σ) (device : DevicePtr) (info : DeviceInfo)
    (w : World σ) : List ((σ → σ) × SessionCall) → Bool
  | [] => false
  | step :: earlier =>
    let r := RazerDevice.history T device info w earlier
    let w1 : World σ := ⟨step.1 r.2.usb, r.2.log⟩
    match step.2 with
    | SessionCall.close_call =>
      if ((r.1.close T w1).2.calls_since w1).any UsbCall.is_attach then false
      else RazerDevice.detached_by_session T device info w earlier
    | c => RazerDevice.detached_by_session T device info w earlier || r.1.call_detaches T c w1

end Session

/-! ## Checksum -/

/-- The indexed loop of `calculate_crc` over `n` positions from `s` is the
left fold of XOR over the `n` bytes of `data` that start at position `s`. -/
theorem foldl_range_getD (data : List Byte) :
    ∀ (n s : Nat) (c : Byte), s + n ≤ data.length →
      (List.range' s n).foldl (fun crc i => crc ^^^ data.getD i 0) c
        = ((data.drop s).take n).foldl (fun crc b => crc ^^^ b) c := by
  intro n
  induction n with
  | zero => intro s c _; simp
  | succ n ih =>
    intro s c h
    have hs : s < data.length := by omega
    rw [List.range'_succ, List.foldl_cons, ih (s + 1) _ (by omega),
      List.drop_eq_getElem_cons hs, List.take_succ_cons, List.foldl_cons,
      List.getD_eq_getElem data 0 hs]

/-- A report occupies 90 bytes (`static_assert(sizeof(Report) == 90)`). -/
theorem Report.bytes_length (r : Report) : r.bytes.length = 90 := by
  simp [Report.bytes]

/-- The bytes of a report at positions 2..87: the two bytes of
`remaining_packets`, `protocol_type`, `data_size`, `command_class`,
`command_id` and the 80 arguments. -/
theorem Report.bytes_mid (r : Report) :
    (r.bytes.drop 2).take 86 =
      [Fin.ofNat (r.remaining_packets.val % 256), Fin.ofNat (r.remaining_packets.val / 256),
        r.protocol_type, r.data_size, r.command_class, r.command_id]
      ++ List.ofFn r.arguments := by
  have h : (List.ofFn r.arguments).length = 80 := by simp
  simp [Report.bytes, List.take_append_eq_append_take, h]

/-- What `calculate_crc` computes, over the middle bytes. -/
theorem calculate_crc_mid (r : Report) :
    calculate_crc r = ((r.bytes.drop 2).take 86).foldl (fun crc b => crc ^^^ b) 0 := by
  unfold calculate_crc
  exact foldl_range_getD r.bytes 86 2 0 (by rw [Report.bytes_length]; decide)

/-- Claim C1. For every report, which occupies exactly 90 bytes, `calculate_crc`
is the byte-wise XOR of the 86 bytes at positions 2 through 87 of its
serialization, that is of every byte but the first two and the last two. -/
theorem calculate_crc_eq_xor_bytes_2_87 (r : Report) :
    r.bytes.length = 90 ∧
    ((r.bytes.drop 2).take 86).length = 86 ∧
    r.bytes = r.bytes.take 2 ++ (r.bytes.drop 2).take 86 ++ r.bytes.drop 88 ∧
    (r.bytes.take 2).length = 2 ∧ (r.bytes.drop 88).length = 2 ∧
    calculate_crc r = ((r.bytes.drop 2).take 86).foldl (fun crc b => crc ^^^ b) 0 := by
  have hl := Report.bytes_length r
  refine ⟨hl, ?_, ?_, ?_, ?_, calculate_crc_mid r⟩
  · simp [hl]
  · have h : r.bytes.drop 88 = (r.bytes.drop 2).drop 86 := by simp
    rw [h, List.append_assoc, List.take_append_drop, List.take_append_drop]
  · simp [hl]
  · simp [hl]

/-- The checksum of a report given field by field: `status`, `transaction_id`,
`crc` and `reserved` do not enter it. -/
theorem calculate_crc_mk (st tid : Byte) (rp : Word) (pt ds cc ci : Byte)
    (args : Fin 80 → Byte) (c res : Byte) :
    calculate_crc ⟨st, tid, rp, pt, ds, cc, ci, args, c, res⟩ =
      ([Fin.ofNat (rp.val % 256), Fin.ofNat (rp.val / 256), pt, ds, cc, ci]
        ++ List.ofFn args).foldl (fun crc b => crc ^^^ b) 0 := by
  rw [calculate_crc_mid, Report.bytes_mid]

/-- The report built by `create_battery_query`, field by field. -/
theorem create_battery_query_eq (t : Byte) :
    create_battery_query t =
      ⟨0, t, 0, 0, 2, CLASS_MISC, CMD_GET_BATTERY, fun _ => 0,
        calculate_crc ⟨0, t, 0, 0, 2, CLASS_MISC, CMD_GET_BATTERY, fun _ => 0, 0, 0⟩, 0⟩ := rfl

/-- The report built by `create_charging_query`, field by field. -/
theorem create_charging_query_eq (t : Byte) :
    create_charging_query t =
      ⟨0, t, 0, 0, 2, CLASS_MISC, CMD_GET_CHARGING_STATUS, fun _ => 0,
        calculate_crc ⟨0, t, 0, 0, 2, CLASS_MISC, CMD_GET_CHARGING_STATUS, fun _ => 0, 0, 0⟩,
        0⟩ := rfl

/-- Claim C2. For every transaction id, the reports built by
`create_battery_query` and `create_charging_query` carry a checksum that is
valid for the finished report: recomputing `calculate_crc` after the `crc`
field was written gives the stored `crc`. -/
theorem query_crc_valid (t : Byte) :
    calculate_crc (create_battery_query t) = (create_battery_query t).crc ∧
    calculate_crc (create_charging_query t) = (create_charging_query t).crc := by
  rw [create_battery_query_eq, create_charging_query_eq]
  simp only [calculate_crc_mk, and_self]

/-- Claim C3. For every transaction id `t`, `create_battery_query t` (resp.
`create_charging_query t`) is a 90-byte report with `status = 0`,
`transaction_id = t`, `remaining_packets = 0`, `protocol_type = 0`,
`data_size = 2`, `command_class = 0x07`, `command_id = 0x80` (resp. `0x84`),
all 80 arguments `0` and `reserved = 0`; bytes 5, 6 and 7 of its serialization
are its `data_size`, `command_class` and `command_id`. -/
theorem query_fields_and_header_roundtrip (t : Byte) :
    ((create_battery_query t).bytes.length = 90 ∧
      (create_battery_query t).status = 0 ∧
      (create_battery_query t).transaction_id = t ∧
      (create_battery_query t).remaining_packets = 0 ∧
      (create_battery_query t).protocol_type = 0 ∧
      (create_battery_query t).data_size = 2 ∧
      (create_battery_query t).command_class = 0x07 ∧
      (create_battery_query t).command_id = 0x80 ∧
      (∀ i : Fin 80, (create_battery_query t).arguments i = 0) ∧
      (create_battery_query t).reserved = 0 ∧
      (create_battery_query t).bytes[5]? = some (create_battery_query t).data_size ∧
      (create_battery_query t).bytes[6]? = some (create_battery_query t).command_class ∧
      (create_battery_query t).bytes[7]? = some (create_battery_query t).command_id) ∧
    ((create_charging_query t).bytes.length = 90 ∧
      (create_charging_query t).status = 0 ∧
      (create_charging_query t).transaction_id = t ∧
      (create_charging_query t).remaining_packets = 0 ∧
      (create_charging_query t).protocol_type = 0 ∧
      (create_charging_query t).data_size = 2 ∧
      (create_charging_query t).command_class = 0x07 ∧
      (create_charging_query t).command_id = 0x84 ∧
      (∀ i : Fin 80, (create_charging_query t).arguments i = 0) ∧
      (create_charging_query t).reserved = 0 ∧
      (create_charging_query t).bytes[5]? = some (create_charging_query t).data_size ∧
      (create_charging_query t).bytes[6]? = some (create_charging_query t).command_class ∧
      (create_charging_query t).bytes[7]? = some (create_charging_query t).command_id) := by
  refine ⟨⟨Report.bytes_length _, rfl, rfl, rfl, rfl, rfl, rfl, rfl, fun _ => rfl, rfl, ?_, ?_, ?_⟩,
    ⟨Report.bytes_length _, rfl, rfl, rfl, rfl, rfl, rfl, rfl, fun _ => rfl, rfl, ?_, ?_, ?_⟩⟩ <;>
  simp [Report.bytes]

/-- Claim C13. Two reports that agree on all bytes at positions 2..87 have
the same `calculate_crc`; changing `status` (byte 0), `transaction_id`
(byte 1), `crc` (byte 88) or `reserved` (byte 89) never changes it. -/
theorem calculate_crc_invariant_outside_2_87 (r r' : Report) :
    ((r.bytes.drop 2).take 86 = (r'.bytes.drop 2).take 86 →
      calculate_crc r = calculate_crc r') ∧
    (∀ st tid c res : Byte,
      calculate_crc { r with status := st, transaction_id := tid, crc := c, reserved := res }
        = calculate_crc r) := by
  constructor
  · intro h
    rw [calculate_crc_mid, calculate_crc_mid, h]
  · intro st tid c res
    rw [calculate_crc_mid, calculate_crc_mid, Report.bytes_mid, Report.bytes_mid]

/-- Two reports that differ in bytes 0, 1, 88 and 89 only: same checksum. -/
theorem calculate_crc_invariant_outside_2_87_witness :
    calculate_crc { Report.zero with data_size := 2, command_id := 0x80 }
      = calculate_crc { Report.zero with status := 0x02, transaction_id := 0x3f, data_size := 2,
                                         command_id := 0x80, crc := 0x55, reserved := 0x01 } :=
  (calculate_crc_invariant_outside_2_87
    { Report.zero with data_size := 2, command_id := 0x80 }
    { Report.zero with status := 0x02, transaction_id := 0x3f, data_size := 2,
                       command_id := 0x80, crc := 0x55, reserved := 0x01 }).1
    (by rw [Report.bytes_mid, Report.bytes_mid])

/-- Claim C14, as amended. For every report, `calculate_crc` is the XOR of the
bytes of the fields `remaining_packets` through `arguments[79]` inclusive
(`remaining_packets`, `protocol_type`, `data_size`, `command_class`,
`command_id` and all 80 argument bytes); `transaction_id` is byte 1 and does
not enter it. -/
theorem calculate_crc_fields (r : Report) :
    calculate_crc r = xor_remaining_packets_through_arguments r ∧
    (∀ tid : Byte, calculate_crc { r with transaction_id := tid } = calculate_crc r) := by
  constructor
  · rw [calculate_crc_mid, Report.bytes_mid]
    rfl
  · intro tid
    rw [calculate_crc_mid, calculate_crc_mid, Report.bytes_mid, Report.bytes_mid]

set_option maxRecDepth 4000 in
/-- Claim C14, refuted as stated. On the zeroed report with `transaction_id = 1`
the checksum is 0 while the XOR of the fields `transaction_id` through
`arguments[79]` is 1. -/
theorem calculate_crc_not_from_transaction_id :
    calculate_crc { Report.zero with transaction_id := 1 } = 0 ∧
    xor_transaction_id_through_arguments { Report.zero with transaction_id := 1 } = 1 ∧
    calculate_crc { Report.zero with transaction_id := 1 }
      ≠ xor_transaction_id_through_arguments { Report.zero with transaction_id := 1 } := by
  decide

/-! ## Response extractors -/

/-- The two branches of `get_battery_raw`. -/
theorem get_battery_raw_eq (r : Report) :
    get_battery_raw r =
      if r.status = 0x02 ∧ 2 ≤ r.data_size then ((r.arguments 1).val : Int) else -1 := by
  unfold get_battery_raw
  by_cases h1 : r.status = 0x02
  · by_cases h2 : r.data_size < 2
    · have : ¬ (2 ≤ r.data_size) := not_le.mpr h2
      simp [h1, h2, this]
    · have : 2 ≤ r.data_size := not_lt.mp h2
      simp [h1, h2, this]
  · simp [h1]

/-- Claim C4. For every response report, `get_battery_raw` is `arguments[1]`, an
integer in 0..255, if and only if `status == 0x02` and `data_size >= 2`, and
is the "no data" signal `-1` in every other case. -/
theorem get_battery_raw_spec (r : Report) :
    (get_battery_raw r = ((r.arguments 1).val : Int) ↔ (r.status = 0x02 ∧ 2 ≤ r.data_size)) ∧
    (get_battery_raw r = -1 ↔ ¬ (r.status = 0x02 ∧ 2 ≤ r.data_size)) ∧
    (0 ≤ ((r.arguments 1).val : Int) ∧ ((r.arguments 1).val : Int) ≤ 255) := by
  have hb : ((r.arguments 1).val : Int) ≤ 255 := by
    have := (r.arguments 1).isLt
    omega
  have h0 : (0 : Int) ≤ ((r.arguments 1).val : Int) := Int.natCast_nonneg _
  rw [get_battery_raw_eq]
  by_cases h : r.status = 0x02 ∧ 2 ≤ r.data_size
  · rw [if_pos h]
    exact ⟨⟨fun _ => h, fun _ => rfl⟩, ⟨fun e => by omega, fun e => absurd h e⟩, h0, hb⟩
  · rw [if_neg h]
    exact ⟨⟨fun e => by omega, fun e => absurd e h⟩, ⟨fun _ => h, fun _ => rfl⟩, h0, hb⟩

/-- The value of `get_battery_percent` in terms of natural-number division. -/
theorem get_battery_percent_eq (r : Report) :
    get_battery_percent r =
      if r.status = 0x02 ∧ 2 ≤ r.data_size then
        (((r.arguments 1).val * 100 / 255 : Nat) : Int)
      else -1 := by
  unfold get_battery_percent
  rw [get_battery_raw_eq]
  by_cases h : r.status = 0x02 ∧ 2 ≤ r.data_size
  · have h0 : ¬ (((r.arguments 1).val : Int) < 0) := not_lt.mpr (Int.natCast_nonneg _)
    simp only [h, and_self, if_true, h0, if_false]
    rw [Int.tdiv_eq_ediv (by positivity) (by decide)]
    push_cast
    rfl
  · simp [h]

/-- Claim C5. For every response report, `get_battery_percent` is
`floor(arguments[1] * 100 / 255)` when `status == 0x02` and `data_size >= 2`
and the "no data" signal `-1` otherwise; in particular it is `-1` whenever
`status != 0x02`, whatever the other bytes are. -/
theorem get_battery_percent_spec (r : Report) :
    get_battery_percent r =
      (if r.status = 0x02 ∧ 2 ≤ r.data_size then
        ⌊(((r.arguments 1).val : ℚ) * 100) / 255⌋
      else -1) ∧
    (r.status ≠ 0x02 → get_battery_percent r = -1) := by
  have hfloor : ⌊(((r.arguments 1).val : ℚ) * 100) / 255⌋
      = (((r.arguments 1).val * 100 / 255 : Nat) : Int) := by
    have h := Rat.floor_intCast_div_natCast (((r.arguments 1).val : Int) * 100) 255
    push_cast at h ⊢
    exact h
  rw [hfloor]
  refine ⟨get_battery_percent_eq r, ?_⟩
  intro h
  rw [get_battery_percent_eq]
  simp [h]

/-- A report with a foreign status and a full payload: `get_battery_percent`
signals "no data". -/
theorem get_battery_percent_spec_witness :
    get_battery_percent
      { Report.zero with status := 0x03, data_size := 80, arguments := fun _ => 200 } = -1 :=
  (get_battery_percent_spec _).2 (by decide)

/-- Claim C6. Over reports with `status == 0x02` and `data_size >= 2`,
`get_battery_percent` is monotonically non-decreasing in the raw byte
`arguments[1]` and lies in `[0, 100]`; raw 0 gives 0, raw 128 gives 50 and raw
255 gives 100. -/
theorem get_battery_percent_monotone_bounded (r r' : Report)
    (h : r.status = 0x02 ∧ 2 ≤ r.data_size) (h' : r'.status = 0x02 ∧ 2 ≤ r'.data_size) :
    (r.arguments 1 ≤ r'.arguments 1 → get_battery_percent r ≤ get_battery_percent r') ∧
    (0 ≤ get_battery_percent r ∧ get_battery_percent r ≤ 100) ∧
    (r.arguments 1 = 0 → get_battery_percent r = 0) ∧
    (r.arguments 1 = 128 → get_battery_percent r = 50) ∧
    (r.arguments 1 = 255 → get_battery_percent r = 100) := by
  rw [get_battery_percent_eq r, get_battery_percent_eq r', if_pos h, if_pos h']
  have hlt := (r.arguments 1).isLt
  refine ⟨?_, ⟨?_, ?_⟩, ?_, ?_, ?_⟩
  · intro hle
    have hle' : (r.arguments 1).val ≤ (r'.arguments 1).val := hle
    have : (r.arguments 1).val * 100 / 255 ≤ (r'.arguments 1).val * 100 / 255 :=
      Nat.div_le_div_right (Nat.mul_le_mul_right 100 hle')
    exact_mod_cast this
  · positivity
  · have : (r.arguments 1).val * 100 / 255 ≤ 100 := by omega
    exact_mod_cast this
  · intro e; rw [e]; rfl
  · intro e; rw [e]; rfl
  · intro e; rw [e]; rfl

/-- Two successful responses with raw levels 128 and 255: 50 % and 100 %. -/
theorem get_battery_percent_monotone_bounded_witness :
    get_battery_percent
        { Report.zero with status := 0x02, data_size := 2,
                           arguments := fun i => if i = 1 then 128 else 0 } = 50 ∧
      get_battery_percent
        { Report.zero with status := 0x02, data_size := 2,
                           arguments := fun i => if i = 1 then 128 else 0 }
      ≤ get_battery_percent
        { Report.zero with status := 0x02, data_size := 2,
                           arguments := fun i => if i = 1 then 255 else 0 } :=
  have t := get_battery_percent_monotone_bounded
    { Report.zero with status := 0x02, data_size := 2,
                       arguments := fun i => if i = 1 then 128 else 0 }
    { Report.zero with status := 0x02, data_size := 2,
                       arguments := fun i => if i = 1 then 255 else 0 }
    (by decide) (by decide)
  ⟨t.2.2.2.1 (by decide), t.1 (by decide)⟩

/-- Claim C7. For every response report, `get_charging_status` is true if and
only if `command_class == 0x07`, `command_id == 0x84`, `data_size >= 2` and
`arguments[1] == 1`; every other report yields false. -/
theorem get_charging_status_spec (r : Report) :
    (get_charging_status r = true ↔
      (r.command_class = 0x07 ∧ r.command_id = 0x84 ∧ 2 ≤ r.data_size ∧ r.arguments 1 = 1)) ∧
    (get_charging_status r = false ↔
      ¬ (r.command_class = 0x07 ∧ r.command_id = 0x84 ∧ 2 ≤ r.data_size ∧ r.arguments 1 = 1)) := by
  have key : get_charging_status r = true ↔
      (r.command_class = 0x07 ∧ r.command_id = 0x84 ∧ 2 ≤ r.data_size ∧ r.arguments 1 = 1) := by
    unfold get_charging_status CLASS_MISC CMD_GET_CHARGING_STATUS
    by_cases h : r.command_class = 0x07 ∧ r.command_id = 0x84 ∧ r.data_size ≥ 2
    · rw [if_pos h]
      simp only [decide_eq_true_eq]
      exact ⟨fun e => ⟨h.1, h.2.1, h.2.2, e⟩, fun e => e.2.2.2⟩
    · rw [if_neg h]
      constructor
      · intro e; cases e
      · intro e; exact absurd ⟨e.1, e.2.1, e.2.2.1⟩ h
  refine ⟨key, ?_⟩
  rw [← key]
  cases get_charging_status r <;> simp


set_option maxRecDepth 4000 in
/-- Claim C29. The checksum of a built query does not depend on the
transaction id: for every `t`, `create_battery_query t` carries `crc = 0x85`
and `create_charging_query t` carries `crc = 0x81`, so two queries that differ
only in the transaction id carry the same `crc` byte. -/
theorem query_crc_constant (t : Byte) :
    (create_battery_query t).crc = 0x85 ∧
    (create_charging_query t).crc = 0x81 ∧
    (∀ t' : Byte, (create_battery_query t).crc = (create_battery_query t').crc ∧
      (create_charging_query t).crc = (create_charging_query t').crc) := by
  have hb : ∀ u : Byte, (create_battery_query u).crc = 0x85 := by
    intro u
    rw [create_battery_query_eq]
    simp only [calculate_crc_mk]
    decide
  have hc : ∀ u : Byte, (create_charging_query u).crc = 0x81 := by
    intro u
    rw [create_charging_query_eq]
    simp only [calculate_crc_mk]
    decide
  exact ⟨hb t, hc t, fun t' => ⟨by rw [hb, hb], by rw [hc, hc]⟩⟩

/-- Claim C30. Unlike battery extraction, `get_charging_status` does not
depend on the `status` byte: two reports that differ only in `status` get the
same value, so a report whose `status` is not `0x02`, such as an echoed
request with `arguments[1] == 1`, is reported as charging while
`get_battery_raw` signals "no data" for it. -/
theorem get_charging_status_ignores_status (r r' : Report) (h : r.SameButStatus r') :
    get_charging_status r = get_charging_status r' ∧
    (∀ st : Byte, get_charging_status { r with status := st } = get_charging_status r) ∧
    (r.status ≠ 0x02 → r.command_class = 0x07 → r.command_id = 0x84 → 2 ≤ r.data_size →
      r.arguments 1 = 1 → get_charging_status r = true ∧ get_battery_raw r = -1) := by
  obtain ⟨_, _, _, h4, h5, h6, h7, _, _⟩ := h
  refine ⟨?_, fun st => rfl, ?_⟩
  · unfold get_charging_status
    rw [h4, h5, h6, h7]
  · intro hs hcc hci hds ha
    constructor
    · unfold get_charging_status CLASS_MISC CMD_GET_CHARGING_STATUS
      rw [if_pos ⟨hcc, hci, hds⟩]
      simp [ha]
    · rw [get_battery_raw_eq, if_neg (fun hh => hs hh.1)]

/-- The charging query with `arguments[1] = 1`, echoed with status `0x00`
and with status `0x02`: both are reported as charging, and the echo carries no
battery data. -/
theorem get_charging_status_ignores_status_witness :
    get_charging_status
        { create_charging_query 0x1f with arguments := fun i => if i = 1 then 1 else 0 }
      = get_charging_status
        { create_charging_query 0x1f with status := 0x02,
                                          arguments := fun i => if i = 1 then 1 else 0 } ∧
    get_charging_status
        { create_charging_query 0x1f with arguments := fun i => if i = 1 then 1 else 0 }
      = true ∧
    get_battery_raw
        { create_charging_query 0x1f with arguments := fun i => if i = 1 then 1 else 0 }
      = -1 :=
  have t := get_charging_status_ignores_status
    { create_charging_query 0x1f with arguments := fun i => if i = 1 then 1 else 0 }
    { create_charging_query 0x1f with status := 0x02,
                                      arguments := fun i => if i = 1 then 1 else 0 }
    ⟨rfl, rfl, rfl, rfl, rfl, rfl, rfl, rfl, rfl⟩
  ⟨t.1, t.2.2 (by decide) rfl rfl (by decide) rfl⟩

/-! ## Device session -/

section SessionTheorems
variable {σ : Type}

/-- On an open session `open()` returns true and changes nothing. -/
theorem RazerDevice.open_of_handle (T : Transport σ) (self : RazerDevice) (w : World σ)
    (h : Handle) (hh : self.handle = some h) : self.open T w = (true, self, w) := by
  unfold RazerDevice.open
  rw [hh]

/-- After a successful `open()` the session holds a handle and its
`device_info` is what it was. -/
theorem RazerDevice.open_true (T : Transport σ) (self : RazerDevice) (w : World σ)
    (h : (self.open T w).1 = true) :
    (∃ hd, (self.open T w).2.1.handle = some hd) ∧
      (self.open T w).2.1.device_info = self.device_info := by
  unfold RazerDevice.open at h ⊢
  cases hh : self.handle with
  | some hd => simp [hh]
  | none =>
    simp only [hh] at h ⊢
    split_ifs at h ⊢ <;> simp_all

/-- What `get_battery_status` returns, from the point where it reaches its
final battery exchange. -/
theorem RazerDevice.get_battery_status_result (T : Transport σ) (self : RazerDevice)
    (w : World σ) :
    (self.get_battery_status T w).1 =
      match self.query_entry T w with
      | none => none
      | some e =>
        if (e.1.send_report T (create_battery_query e.1.device_info.transaction_id) e.2).1 then
          match (e.1.receive_report T
            (e.1.send_report T (create_battery_query e.1.device_info.transaction_id) e.2).2).1 with
          | none => none
          | some resp =>
            if get_battery_percent resp < 0 then none
            else some (BatteryStatus.mk2 (get_battery_percent resp) false)
        else none := by
  unfold RazerDevice.get_battery_status RazerDevice.query_entry
  simp only []
  split_ifs <;> (try simp_all) <;> (try split) <;> (try simp_all) <;>
    (try (split_ifs <;> rfl))

/-- The conditional `open()` at the start of `get_battery_status` is `open()`. -/
theorem RazerDevice.open_if_closed (T : Transport σ) (self : RazerDevice) (w : World σ) :
    (if self.handle.isNone then self.open T w else (true, self, w)) = self.open T w := by
  cases hh : self.handle with
  | none => simp
  | some hd => simp [RazerDevice.open_of_handle T self w hd hh]

/-- On an open session `send_report` succeeds exactly when the transfer does
not report a negative result. -/
theorem RazerDevice.send_report_open (T : Transport σ) (self : RazerDevice) (q : Report)
    (w : World σ) (h : Handle) (hh : self.handle = some h) :
    self.send_report T q w =
      (decide (0 ≤ (T.control_transfer_out w.usb q).1),
        ⟨(T.control_transfer_out w.usb q).2, w.log ++ [UsbCall.control_transfer_out q]⟩) := by
  unfold RazerDevice.send_report
  rw [hh]
  by_cases hlt : (T.control_transfer_out w.usb q).1 < 0
  · simp [hlt, not_le.mpr hlt]
  · simp [hlt, not_lt.mp hlt]

/-- On an open session `receive_report` returns the buffer exactly when the
transfer does not report a negative result. -/
theorem RazerDevice.receive_report_open (T : Transport σ) (self : RazerDevice)
    (w : World σ) (h : Handle) (hh : self.handle = some h) :
    self.receive_report T w =
      (if 0 ≤ (T.control_transfer_in w.usb).1 then some (T.control_transfer_in w.usb).2.1
        else none,
        ⟨(T.control_transfer_in w.usb).2.2, w.log ++ [UsbCall.control_transfer_in]⟩) := by
  unfold RazerDevice.receive_report
  rw [hh]
  by_cases hlt : (T.control_transfer_in w.usb).1 < 0
  · simp [hlt, not_le.mpr hlt]
  · simp [hlt, not_lt.mp hlt]

/-- One turn of the loop of `detect_transaction_id`, in terms of `probe`. -/
theorem RazerDevice.detect_loop_cons (T : Transport σ) (self : RazerDevice) (id : Byte)
    (rest : List Byte) (w : World σ) :
    self.detect_loop T (id :: rest) w =
      if (self.probe T id w).1 then (some id, (self.probe T id w).2)
      else self.detect_loop T rest (self.probe T id w).2 := by
  rw [RazerDevice.detect_loop]
  unfold RazerDevice.probe
  simp only []
  by_cases hs : (self.send_report T (create_battery_query id) w).1 = true
  · simp only [hs, if_true]
    cases hr : (self.receive_report T (self.send_report T (create_battery_query id) w).2).1 with
    | none => simp
    | some resp =>
      by_cases hc : resp.status = 0x02 ∧ get_battery_raw resp ≥ 0
      · simp [hc]
      · simp [hc]
  · simp [hs]

/-- A response answering `r` has raw value `r` and percentage `r * 100 / 255`. -/
theorem Report.Answers.values {resp : Report} {r : Byte} (h : resp.Answers r) :
    get_battery_raw resp = (r.val : Int) ∧
      get_battery_percent resp = ((r.val * 100 / 255 : Nat) : Int) := by
  obtain ⟨h1, h2, h3⟩ := h
  rw [get_battery_raw_eq, get_battery_percent_eq, if_pos ⟨h1, h2⟩, if_pos ⟨h1, h2⟩, h3]
  exact ⟨rfl, rfl⟩

/-- On an open session the exchange with an accepting device succeeds. -/
theorem RazerDevice.exchange_accepted (T : Transport σ) (self : RazerDevice) (w : World σ)
    (h : Handle) (hh : self.handle = some h) (t r : Byte) (hacc : T.AcceptsWith t r) :
    (self.send_report T (create_battery_query t) w).1 = true ∧
    ∃ resp, (self.receive_report T (self.send_report T (create_battery_query t) w).2).1
        = some resp ∧ resp.Answers r := by
  obtain ⟨h1, h2, h3⟩ := hacc w.usb
  rw [RazerDevice.send_report_open T self _ w h hh, RazerDevice.receive_report_open T self _ h hh]
  simp only [h1, h2, decide_True, if_true, true_and]
  exact ⟨_, rfl, h3⟩

/-- On an open session the probe of an accepted id succeeds. -/
theorem RazerDevice.probe_accepted (T : Transport σ) (self : RazerDevice) (w : World σ)
    (h : Handle) (hh : self.handle = some h) (t r : Byte) (hacc : T.AcceptsWith t r) :
    (self.probe T t w).1 = true := by
  obtain ⟨hs, resp, hr, ha⟩ := RazerDevice.exchange_accepted T self w h hh t r hacc
  unfold RazerDevice.probe
  simp only [hs, if_true, hr]
  have hraw := ha.values.1
  have : get_battery_raw resp ≥ 0 := by rw [hraw]; exact Int.natCast_nonneg _
  simp [ha.1, this]

/-- With an accepted first candidate the detection returns it. -/
theorem RazerDevice.detect_first_accepted (T : Transport σ) (self : RazerDevice) (w : World σ)
    (h : Handle) (hh : self.handle = some h) (r : Byte) (hacc : T.AcceptsWith 0x1f r) :
    (self.detect_transaction_id T w).1 = 0x1f := by
  unfold RazerDevice.detect_transaction_id
  simp only [ids]
  rw [RazerDevice.detect_loop_cons, RazerDevice.probe_accepted T self w h hh 0x1f r hacc]
  rfl

/-- When `open()` succeeds (or the session is open) and the device accepts
the session's transaction id, the final exchange is reached with an open
session carrying that same id. -/
theorem RazerDevice.query_entry_accepted (T : Transport σ) (self : RazerDevice) (w : World σ)
    (r : Byte) (hopen : (self.open T w).1 = true)
    (hacc : T.AcceptsWith self.device_info.transaction_id r) :
    ∃ e h, self.query_entry T w = some e ∧ e.1.handle = some h ∧
      e.1.device_info.transaction_id = self.device_info.transaction_id := by
  obtain ⟨⟨hd, hhd⟩, hinfo⟩ := RazerDevice.open_true T self w hopen
  unfold RazerDevice.query_entry
  simp only [RazerDevice.open_if_closed, hopen, not_true_eq_false, if_false]
  by_cases ht : self.device_info.transaction_id = 0x1f
  · have ht' : (self.open T w).2.1.device_info.transaction_id = 0x1f := by rw [hinfo, ht]
    rw [ht] at hacc
    rw [if_pos ht']
    refine ⟨_, hd, rfl, hhd, ?_⟩
    simp only [RazerDevice.detect_first_accepted T _ _ hd hhd r hacc, ht]
  · have ht' : ¬ (self.open T w).2.1.device_info.transaction_id = 0x1f := by rw [hinfo]; exact ht
    rw [if_neg ht']
    exact ⟨_, hd, rfl, hhd, by rw [hinfo]⟩

/-- Claim C8. For every simulated device that accepts the session's transaction
id and answers every battery query with a report having `status = 0x02`,
`data_size >= 2` and `arguments[1] = r`, on a session that is open or that
`open()` opens, `get_battery_status` returns a `BatteryStatus` with
`percentage = floor(r * 100 / 255)`, `is_valid = true` and
`is_charging = false`; with `r = 200` the percentage is 78. -/
theorem get_battery_status_simulated (T : Transport σ) (self : RazerDevice) (w : World σ)
    (r : Byte) (hopen : (self.open T w).1 = true)
    (hacc : T.AcceptsWith self.device_info.transaction_id r) :
    (self.get_battery_status T w).1
        = some { percentage := ((r.val * 100 / 255 : Nat) : Int),
                 is_charging := false, is_valid := true } ∧
    (r = 200 → (self.get_battery_status T w).1
        = some { percentage := 78, is_charging := false, is_valid := true }) := by
  have main : (self.get_battery_status T w).1
      = some { percentage := ((r.val * 100 / 255 : Nat) : Int),
               is_charging := false, is_valid := true } := by
    obtain ⟨e, hd, he, hhd, htid⟩ := RazerDevice.query_entry_accepted T self w r hopen hacc
    rw [← htid] at hacc
    obtain ⟨hs, resp, hr, ha⟩ :=
      RazerDevice.exchange_accepted T e.1 e.2 hd hhd e.1.device_info.transaction_id r hacc
    rw [RazerDevice.get_battery_status_result, he]
    simp only [hs, if_true, hr, ha.values.2]
    rw [if_neg (not_lt.mpr (Int.natCast_nonneg _))]
    rfl
  refine ⟨main, ?_⟩
  intro h200
  rw [main, h200]
  rfl

/-- The simulated device accepts its id and answers with its level. -/
theorem simDevice_accepts (accepted level : Byte) :
    (simDevice accepted level).AcceptsWith accepted level := by
  intro s
  have e : (create_battery_query accepted).transaction_id = accepted := rfl
  simp [simDevice, Report.Answers, Report.zero, e]

/-- The end-to-end scenario: a fresh session on the simulated device that
accepts `0x1f` and reports the raw level 200 reads 78 %. -/
theorem get_battery_status_simulated_witness :
    (RazerDevice.get_battery_status (simDevice 0x1f 200)
        (RazerDevice.new 0 DeviceInfo.default) ⟨none, []⟩).1
      = some { percentage := 78, is_charging := false, is_valid := true } :=
  (get_battery_status_simulated (simDevice 0x1f 200) (RazerDevice.new 0 DeviceInfo.default)
    ⟨none, []⟩ 200 (by decide) (simDevice_accepts 0x1f 200)).2 rfl

/-- Claim C9. For every transport behaviour, if the final battery exchange of
`get_battery_status` fails (the send fails, the receive fails, or the received
report has `status != 0x02` or `data_size < 2`), `get_battery_status` returns
the empty optional, and so no `BatteryStatus` with percentage 0; conversely
every `BatteryStatus` it returns has `is_valid = true`. -/
theorem get_battery_status_failure (T : Transport σ) (self : RazerDevice) (w : World σ) :
    (∀ e, self.query_entry T w = some e →
      ((e.1.send_report T (create_battery_query e.1.device_info.transaction_id) e.2).1 = false ∨
        (e.1.receive_report T
          (e.1.send_report T (create_battery_query e.1.device_info.transaction_id) e.2).2).1
            = none ∨
        (∃ resp, (e.1.receive_report T
          (e.1.send_report T (create_battery_query e.1.device_info.transaction_id) e.2).2).1
            = some resp ∧ (resp.status ≠ 0x02 ∨ resp.data_size < 2))) →
      (self.get_battery_status T w).1 = none ∧
        ∀ c v, (self.get_battery_status T w).1
          ≠ some { percentage := 0, is_charging := c, is_valid := v }) ∧
    (∀ b, (self.get_battery_status T w).1 = some b → b.is_valid = true) := by
  constructor
  · intro e he hfail
    have hnone : (self.get_battery_status T w).1 = none := by
      rw [RazerDevice.get_battery_status_result, he]
      rcases hfail with hs | hr | ⟨resp, hr, hbad⟩
      · simp [hs]
      · simp only [hr]
        split_ifs <;> rfl
      · have hp : get_battery_percent resp = -1 := by
          rw [get_battery_percent_eq, if_neg]
          rintro ⟨h1, h2⟩
          rcases hbad with hb | hb
          · exact hb h1
          · exact absurd h2 (not_le.mpr hb)
        simp only [hr, hp]
        have hneg : ((-1 : Int) < 0) := by decide
        simp only [hneg, if_true]
        split_ifs <;> rfl
    refine ⟨hnone, ?_⟩
    intro c v
    rw [hnone]
    exact fun h => Option.noConfusion h
  · intro b hb
    rw [RazerDevice.get_battery_status_result] at hb
    split at hb
    · exact Option.noConfusion hb
    · split_ifs at hb
      split at hb
      · exact Option.noConfusion hb
      · split_ifs at hb
        rw [← Option.some.inj hb]; rfl

/-- A session with transaction id `0x9f` on a simulated device that accepts
only `0x3f`: the response has status `0x05` and no status is available. -/
theorem get_battery_status_failure_witness :
    (RazerDevice.get_battery_status (simDevice 0x3f 200)
        (RazerDevice.new 0 { DeviceInfo.default with transaction_id := 0x9f }) ⟨none, []⟩).1
      = none :=
  ((get_battery_status_failure (simDevice 0x3f 200)
      (RazerDevice.new 0 { DeviceInfo.default with transaction_id := 0x9f }) ⟨none, []⟩).1
    ({ RazerDevice.new 0 { DeviceInfo.default with transaction_id := 0x9f } with handle := some 1 },
      ⟨none, [UsbCall.libusb_open 0, UsbCall.libusb_kernel_driver_active,
        UsbCall.libusb_claim_interface]⟩)
    rfl
    (Or.inr (Or.inr ⟨{ Report.zero with status := 0x05 }, rfl, Or.inl (by decide)⟩))).1

/-- The result of `detect_transaction_id` as a cascade over the four probes,
each made in the world its predecessors leave. -/
theorem RazerDevice.detect_transaction_id_cascade (T : Transport σ) (self : RazerDevice)
    (w : World σ) :
    (self.detect_transaction_id T w).1 =
      if (self.probe T 0x1f (self.world_at T w 0)).1 then 0x1f
      else if (self.probe T 0x3f (self.world_at T w 1)).1 then 0x3f
      else if (self.probe T 0x9f (self.world_at T w 2)).1 then 0x9f
      else if (self.probe T 0xff (self.world_at T w 3)).1 then 0xff
      else 0x1f := by
  have e1 : self.world_at T w 1 = (self.probe T 0x1f (self.world_at T w 0)).2 := rfl
  have e2 : self.world_at T w 2 = (self.probe T 0x3f (self.world_at T w 1)).2 := rfl
  have e3 : self.world_at T w 3 = (self.probe T 0x9f (self.world_at T w 2)).2 := rfl
  have e0 : self.world_at T w 0 = w := rfl
  rw [e3, e2, e1, e0]
  unfold RazerDevice.detect_transaction_id
  simp only [ids]
  rw [RazerDevice.detect_loop_cons]
  by_cases p0 : (self.probe T 0x1f w).1 = true
  · simp only [p0, if_true, if_false, Bool.false_eq_true]
  · simp only [p0, if_false, Bool.false_eq_true]
    rw [RazerDevice.detect_loop_cons]
    by_cases p1 : (self.probe T 0x3f (self.probe T 0x1f w).2).1 = true
    · simp only [p1, if_true, if_false, Bool.false_eq_true]
    · simp only [p1, if_false, Bool.false_eq_true]
      rw [RazerDevice.detect_loop_cons]
      by_cases p2 : (self.probe T 0x9f (self.probe T 0x3f (self.probe T 0x1f w).2).2).1 = true
      · simp only [p2, if_true, if_false, Bool.false_eq_true]
      · simp only [p2, if_false, Bool.false_eq_true]
        rw [RazerDevice.detect_loop_cons]
        by_cases p3 : (self.probe T 0xff
            (self.probe T 0x9f (self.probe T 0x3f (self.probe T 0x1f w).2).2).2).1 = true
        · simp only [p3, if_true, if_false, Bool.false_eq_true]
        · simp only [p3, if_false, Bool.false_eq_true]
          rw [RazerDevice.detect_loop]

/-- Claim C10. For every transport behaviour, `detect_transaction_id` returns
the first id of the ordered candidate list `[0x1f, 0x3f, 0x9f, 0xff]` whose
probe succeeds (the battery query with that id is sent successfully, a response
is received, and it has `status == 0x02` and a non-negative raw battery
value), and the first candidate `0x1f` when no probe succeeds. -/
theorem detect_transaction_id_first_success (T : Transport σ) (self : RazerDevice)
    (w : World σ) :
    ids = [0x1f, 0x3f, 0x9f, 0xff] ∧
    (∀ k, k < ids.length →
      (∀ j, j < k → (self.probe T (ids.getD j 0) (self.world_at T w j)).1 = false) →
      (self.probe T (ids.getD k 0) (self.world_at T w k)).1 = true →
      (self.detect_transaction_id T w).1 = ids.getD k 0) ∧
    ((∀ j, j < ids.length →
        (self.probe T (ids.getD j 0) (self.world_at T w j)).1 = false) →
      (self.detect_transaction_id T w).1 = ids.getD 0 0) := by
  have i0 : ids.getD 0 0 = 0x1f := rfl
  have i1 : ids.getD 1 0 = 0x3f := rfl
  have i2 : ids.getD 2 0 = 0x9f := rfl
  have i3 : ids.getD 3 0 = 0xff := rfl
  have il : ids.length = 4 := rfl
  refine ⟨rfl, ?_, ?_⟩
  · intro k hk hfail hok
    rw [il] at hk
    rw [RazerDevice.detect_transaction_id_cascade]
    interval_cases k
    · rw [i0] at hok ⊢
      rw [if_pos hok]
    · have f0 := hfail 0 (by decide)
      rw [i0] at f0
      rw [i1] at hok ⊢
      simp only [f0, hok, if_true, if_false, Bool.false_eq_true]
    · have f0 := hfail 0 (by decide)
      have f1 := hfail 1 (by decide)
      rw [i0] at f0
      rw [i1] at f1
      rw [i2] at hok ⊢
      simp only [f0, f1, hok, if_true, if_false, Bool.false_eq_true]
    · have f0 := hfail 0 (by decide)
      have f1 := hfail 1 (by decide)
      have f2 := hfail 2 (by decide)
      rw [i0] at f0
      rw [i1] at f1
      rw [i2] at f2
      rw [i3] at hok ⊢
      simp only [f0, f1, f2, hok, if_true, if_false, Bool.false_eq_true]
  · intro hfail
    rw [il] at hfail
    have f0 := hfail 0 (by decide)
    have f1 := hfail 1 (by decide)
    have f2 := hfail 2 (by decide)
    have f3 := hfail 3 (by decide)
    rw [i0] at f0
    rw [i1] at f1
    rw [i2] at f2
    rw [i3] at f3
    rw [RazerDevice.detect_transaction_id_cascade, i0]
    simp only [f0, f1, f2, f3, if_false, Bool.false_eq_true]

/-- An open session on a simulated device that accepts only `0x9f`: the first
two probes fail, the third succeeds, and `0x9f` is returned. -/
theorem detect_transaction_id_first_success_witness :
    (RazerDevice.detect_transaction_id (simDevice 0x9f 200)
        { RazerDevice.new 0 DeviceInfo.default with handle := some 1 } ⟨none, []⟩).1 = 0x9f :=
  (detect_transaction_id_first_success (simDevice 0x9f 200)
      { RazerDevice.new 0 DeviceInfo.default with handle := some 1 } ⟨none, []⟩).2.1 2
    (by decide)
    (fun j hj => by interval_cases j <;> decide)
    (by decide)

/-! ### Session lifecycle -/

/-- A world has logged nothing beyond itself. -/
theorem World.calls_since_self (w : World σ) : w.calls_since w = [] := by
  simp [World.calls_since]

/-- The calls logged beyond `w` by a world whose log extends that of `w`. -/
theorem World.calls_since_append (w : World σ) (s : σ) (extra : List UsbCall) :
    World.calls_since ⟨s, w.log ++ extra⟩ w = extra := by
  simp [World.calls_since]

/-- Claim C16. `open()` on a session that is already Open returns success and
is a no-op: it makes no transport call and leaves the session, in particular
its handle, its kernel-driver-detached flag and its device identity,
unchanged. -/
theorem open_already_open_noop (T : Transport σ) (self : RazerDevice) (w : World σ)
    (ho : self.is_open = true) :
    (self.open T w).1 = true ∧
    (self.open T w).2.2 = w ∧
    (self.open T w).2.2.calls_since w = [] ∧
    (self.open T w).2.1 = self ∧
    (self.open T w).2.1.handle = self.handle ∧
    (self.open T w).2.1.kernel_driver_detached = self.kernel_driver_detached ∧
    (self.open T w).2.1.device_info = self.device_info := by
  obtain ⟨h, hh⟩ : ∃ h, self.handle = some h := Option.isSome_iff_exists.mp ho
  rw [RazerDevice.open_of_handle T self w h hh]
  exact ⟨rfl, rfl, World.calls_since_self w, rfl, rfl, rfl, rfl⟩

/-- An open session on a simulated device: `open()` succeeds and logs nothing. -/
theorem open_already_open_noop_witness :
    (RazerDevice.open (simDevice 0x1f 200)
        { RazerDevice.new 0 DeviceInfo.default with handle := some 1 } ⟨none, []⟩).1 = true ∧
    (RazerDevice.open (simDevice 0x1f 200)
        { RazerDevice.new 0 DeviceInfo.default with handle := some 1 } ⟨none, []⟩).2.2.log = [] :=
  have t := open_already_open_noop (simDevice 0x1f 200)
    { RazerDevice.new 0 DeviceInfo.default with handle := some 1 } ⟨none, []⟩ rfl
  ⟨t.1, by rw [t.2.1]⟩

/-- After `close()` the session holds no handle. -/
theorem RazerDevice.close_handle (T : Transport σ) (self : RazerDevice) (w : World σ) :
    (self.close T w).1.handle = none := by
  unfold RazerDevice.close
  cases hh : self.handle with
  | none => simp [hh]
  | some h => simp

/-- On a session without a handle `close()` returns at once. -/
theorem RazerDevice.close_of_closed (T : Transport σ) (self : RazerDevice) (w : World σ)
    (hh : self.handle = none) : self.close T w = (self, w) := by
  unfold RazerDevice.close
  rw [hh]

/-- Claim C19. `close()` on an already-Closed session is a no-op: it makes no
transport call and leaves every field of the session unchanged, so `close()`
is idempotent. -/
theorem close_closed_noop (T : Transport σ) (self : RazerDevice) (w : World σ) :
    (self.is_open = false →
      (self.close T w).1 = self ∧ (self.close T w).2 = w ∧
        (self.close T w).2.calls_since w = []) ∧
    RazerDevice.close T (self.close T w).1 (self.close T w).2 = self.close T w := by
  constructor
  · intro hc
    have hh : self.handle = none := by
      cases hs : self.handle with
      | none => rfl
      | some h => simp [RazerDevice.is_open, hs] at hc
    rw [RazerDevice.close_of_closed T self w hh]
    exact ⟨rfl, rfl, World.calls_since_self w⟩
  · exact RazerDevice.close_of_closed T _ _ (RazerDevice.close_handle T self w)

/-- A fresh, never opened session: `close()` logs nothing. -/
theorem close_closed_noop_witness :
    (RazerDevice.close (simDevice 0x1f 200)
        (RazerDevice.new 0 DeviceInfo.default) ⟨none, []⟩).2.log = [] :=
  have t := (close_closed_noop (simDevice 0x1f 200)
    (RazerDevice.new 0 DeviceInfo.default) ⟨none, []⟩).1 rfl
  by rw [t.2.1]

/-- Claim C20. `send_report` returns false and `receive_report` returns
nothing whenever the session is not Open, without any control transfer, and
also whenever the control transfer reports a negative result; in every other
case `send_report` returns true and `receive_report` returns the 90-byte
report the transfer filled. An Open session issues exactly one control
transfer per call. -/
theorem send_receive_report_spec (T : Transport σ) (self : RazerDevice) (report : Report)
    (w : World σ) :
    (self.is_open = false →
      self.send_report T report w = (false, w) ∧ self.receive_report T w = (none, w) ∧
      (self.send_report T report w).2.calls_since w = [] ∧
      (self.receive_report T w).2.calls_since w = []) ∧
    (self.is_open = true →
      ((T.control_transfer_out w.usb report).1 < 0 →
        (self.send_report T report w).1 = false) ∧
      (0 ≤ (T.control_transfer_out w.usb report).1 →
        (self.send_report T report w).1 = true) ∧
      (self.send_report T report w).2.calls_since w = [UsbCall.control_transfer_out report] ∧
      (self.send_report T report w).2.usb = (T.control_transfer_out w.usb report).2 ∧
      ((T.control_transfer_in w.usb).1 < 0 → (self.receive_report T w).1 = none) ∧
      (0 ≤ (T.control_transfer_in w.usb).1 →
        (self.receive_report T w).1 = some (T.control_transfer_in w.usb).2.1 ∧
        (T.control_transfer_in w.usb).2.1.bytes.length = 90) ∧
      (self.receive_report T w).2.calls_since w = [UsbCall.control_transfer_in] ∧
      (self.receive_report T w).2.usb = (T.control_transfer_in w.usb).2.2) := by
  constructor
  · intro hc
    have hh : self.handle = none := by
      cases hs : self.handle with
      | none => rfl
      | some h => simp [RazerDevice.is_open, hs] at hc
    have e1 : self.send_report T report w = (false, w) := by
      unfold RazerDevice.send_report; rw [hh]
    have e2 : self.receive_report T w = (none, w) := by
      unfold RazerDevice.receive_report; rw [hh]
    rw [e1, e2]
    exact ⟨rfl, rfl, World.calls_since_self w, World.calls_since_self w⟩
  · intro ho
    obtain ⟨h, hh⟩ : ∃ h, self.handle = some h := Option.isSome_iff_exists.mp ho
    rw [RazerDevice.send_report_open T self report w h hh,
      RazerDevice.receive_report_open T self w h hh]
    refine ⟨?_, ?_, World.calls_since_append w _ _, rfl, ?_, ?_,
      World.calls_since_append w _ _, rfl⟩
    · intro hlt
      simp [not_le.mpr hlt]
    · intro hge
      simp [hge]
    · intro hlt
      simp [not_le.mpr hlt]
    · intro hge
      simp [hge, Report.bytes_length]

/-- A closed session sends nothing; an open one on the simulated device sends
and receives. -/
theorem send_receive_report_spec_witness :
    RazerDevice.send_report (simDevice 0x1f 200) (RazerDevice.new 0 DeviceInfo.default)
        (create_battery_query 0x1f) ⟨none, []⟩ = (false, ⟨none, []⟩) ∧
    (RazerDevice.send_report (simDevice 0x1f 200)
        { RazerDevice.new 0 DeviceInfo.default with handle := some 1 }
        (create_battery_query 0x1f) ⟨none, []⟩).1 = true :=
  ⟨((send_receive_report_spec (simDevice 0x1f 200) (RazerDevice.new 0 DeviceInfo.default)
      (create_battery_query 0x1f) ⟨none, []⟩).1 rfl).1,
   ((send_receive_report_spec (simDevice 0x1f 200)
      { RazerDevice.new 0 DeviceInfo.default with handle := some 1 }
      (create_battery_query 0x1f) ⟨none, []⟩).2 rfl).2.1 (by decide)⟩

/-- What `open()` does on a session without a handle: it leaves the device
identity alone, logs `libusb_open` first and no control transfer, and when it
fails the session still has no handle. -/
theorem RazerDevice.open_closed_facts (T : Transport σ) (self : RazerDevice) (w : World σ)
    (hh : self.handle = none) :
    (self.open T w).2.1.device_info = self.device_info ∧
    (∃ rest, (self.open T w).2.2.calls_since w = UsbCall.libusb_open self.device :: rest ∧
      ∀ c ∈ rest, c.is_control_transfer = false) ∧
    ((self.open T w).1 = false → (self.open T w).2.1.handle = none) := by
  unfold RazerDevice.open
  rw [hh]
  simp only [World.calls_since]
  split_ifs <;>
    simp [UsbCall.is_control_transfer, hh]

/-- Claim C15. When `get_battery_status` is called on a Closed session it
first runs `open()`; if that `open()` fails it returns "no status available",
issues no control transfer at all and leaves the session Closed with its
transaction id unchanged. -/
theorem get_battery_status_open_failure (T : Transport σ) (self : RazerDevice) (w : World σ)
    (hc : self.is_open = false) (hf : (self.open T w).1 = false) :
    (self.get_battery_status T w).1 = none ∧
    (self.get_battery_status T w).2 = (self.open T w).2 ∧
    (∃ rest, (self.get_battery_status T w).2.2.calls_since w
      = UsbCall.libusb_open self.device :: rest) ∧
    (∀ c ∈ (self.get_battery_status T w).2.2.calls_since w, c.is_control_transfer = false) ∧
    (self.get_battery_status T w).2.1.is_open = false ∧
    (self.get_battery_status T w).2.1.device_info.transaction_id
      = self.device_info.transaction_id := by
  have hh : self.handle = none := by
    cases hs : self.handle with
    | none => rfl
    | some h => simp [RazerDevice.is_open, hs] at hc
  obtain ⟨hinfo, ⟨rest, hlog, hrest⟩, hclosed⟩ := RazerDevice.open_closed_facts T self w hh
  have e : self.get_battery_status T w = (none, (self.open T w).2) := by
    unfold RazerDevice.get_battery_status
    simp only [RazerDevice.open_if_closed, hf, Bool.false_eq_true, not_false_eq_true, if_true]
  rw [e]
  refine ⟨rfl, rfl, ⟨rest, hlog⟩, ?_, ?_, ?_⟩
  · intro c hcm
    simp only [hlog, List.mem_cons] at hcm
    rcases hcm with rfl | hcm
    · rfl
    · exact hrest c hcm
  · simp [RazerDevice.is_open, hclosed hf]
  · simp only [hinfo]

/-- A fresh session on a device that cannot be opened (`libusb_open` returns
`-3`): no status, and the only call made is `libusb_open`. -/
theorem get_battery_status_open_failure_witness :
    (RazerDevice.get_battery_status (stubDevice (-3) 0 0 0)
        (RazerDevice.new 0 DeviceInfo.default) ⟨(), []⟩).1 = none ∧
    ∀ c ∈ World.calls_since (RazerDevice.get_battery_status (stubDevice (-3) 0 0 0)
        (RazerDevice.new 0 DeviceInfo.default) ⟨(), []⟩).2.2 ⟨(), []⟩,
      c.is_control_transfer = false :=
  have t := get_battery_status_open_failure (stubDevice (-3) 0 0 0)
    (RazerDevice.new 0 DeviceInfo.default) ⟨(), []⟩ rfl (by decide)
  ⟨t.1, t.2.2.2.1⟩

/-- Claim C17. For every transport behaviour, if `open()` returns failure the
session is Closed afterwards, so that a following `close()` is a no-op; when
the handle acquisition failed nothing but `libusb_open` was called, and when
the interface claim failed the handle acquired during that `open()` has been
released with `libusb_close` right after the failed claim. -/
theorem open_failure_leaves_closed (T : Transport σ) (self : RazerDevice) (w : World σ)
    (hf : (self.open T w).1 = false) :
    (self.open T w).2.1.handle = none ∧
    (self.open T w).2.1.is_open = false ∧
    (∀ w1 : World σ, RazerDevice.close T (self.open T w).2.1 w1 = ((self.open T w).2.1, w1)) ∧
    ((T.libusb_open w.usb self.device).1 ≠ LIBUSB_SUCCESS →
      (self.open T w).2.2.calls_since w = [UsbCall.libusb_open self.device]) ∧
    ((T.libusb_open w.usb self.device).1 = LIBUSB_SUCCESS →
      ∃ pre s, (self.open T w).2.2.calls_since w
          = UsbCall.libusb_open self.device :: pre
            ++ [UsbCall.libusb_claim_interface, UsbCall.libusb_close] ∧
        (T.libusb_claim_interface s).1 ≠ LIBUSB_SUCCESS ∧
        (self.open T w).2.2.usb = T.libusb_close (T.libusb_claim_interface s).2) := by
  have hh : self.handle = none := by
    cases hs : self.handle with
    | none => rfl
    | some h => rw [RazerDevice.open_of_handle T self w h hs] at hf; cases hf
  have hnone := (RazerDevice.open_closed_facts T self w hh).2.2 hf
  refine ⟨hnone, by simp [RazerDevice.is_open, hnone],
    fun w1 => RazerDevice.close_of_closed T _ w1 hnone, ?_, ?_⟩
  · intro ho
    unfold RazerDevice.open
    rw [hh]
    simp only [ho, ne_eq, not_false_eq_true, if_true]
    exact World.calls_since_append w _ _
  · intro ho
    unfold RazerDevice.open at hf ⊢
    rw [hh] at hf ⊢
    simp only [ho, ne_eq, not_true_eq_false, if_false] at hf ⊢
    by_cases ha : (T.libusb_kernel_driver_active (T.libusb_open w.usb self.device).2.2).1 = 1
    · simp only [ha, if_true] at hf ⊢
      by_cases hc : (T.libusb_claim_interface (T.libusb_detach_kernel_driver
          (T.libusb_kernel_driver_active (T.libusb_open w.usb self.device).2.2).2).2).1
            = LIBUSB_SUCCESS
      · exfalso
        split_ifs at hf
      · refine ⟨[UsbCall.libusb_kernel_driver_active, UsbCall.libusb_detach_kernel_driver],
          (T.libusb_detach_kernel_driver
            (T.libusb_kernel_driver_active (T.libusb_open w.usb self.device).2.2).2).2, ?_, hc, ?_⟩
        · split_ifs <;> simp_all [World.calls_since]
        · split_ifs <;> simp_all
    · simp only [ha, if_false] at hf ⊢
      by_cases hc : (T.libusb_claim_interface
          (T.libusb_kernel_driver_active (T.libusb_open w.usb self.device).2.2).2).1
            = LIBUSB_SUCCESS
      · exfalso
        simp_all
      · refine ⟨[UsbCall.libusb_kernel_driver_active],
          (T.libusb_kernel_driver_active (T.libusb_open w.usb self.device).2.2).2, ?_, hc, ?_⟩
        · simp_all [World.calls_since]
        · simp_all

/-- A fresh session on a device whose interface is busy (claim returns `-6`):
`open()` fails, the session is Closed and the handle was released. -/
theorem open_failure_leaves_closed_witness :
    (RazerDevice.open (stubDevice 0 0 0 (-6))
        (RazerDevice.new 0 DeviceInfo.default) ⟨(), []⟩).2.1.is_open = false ∧
    ∃ pre s, World.calls_since (RazerDevice.open (stubDevice 0 0 0 (-6))
        (RazerDevice.new 0 DeviceInfo.default) ⟨(), []⟩).2.2 ⟨(), []⟩
          = UsbCall.libusb_open 0 :: pre
            ++ [UsbCall.libusb_claim_interface, UsbCall.libusb_close] ∧
        ((stubDevice 0 0 0 (-6)).libusb_claim_interface s).1 ≠ LIBUSB_SUCCESS ∧
        (RazerDevice.open (stubDevice 0 0 0 (-6))
          (RazerDevice.new 0 DeviceInfo.default) ⟨(), []⟩).2.2.usb
            = (stubDevice 0 0 0 (-6)).libusb_close
              ((stubDevice 0 0 0 (-6)).libusb_claim_interface s).2 :=
  have t := open_failure_leaves_closed (stubDevice 0 0 0 (-6))
    (RazerDevice.new 0 DeviceInfo.default) ⟨(), []⟩ (by decide)
  ⟨t.2.1, t.2.2.2.2 (by decide)⟩

/-- The flag after `open()`: set before, or set by a detach in this `open()`. -/
theorem RazerDevice.open_flag (T : Transport σ) (self : RazerDevice) (w : World σ) :
    (self.open T w).2.1.kernel_driver_detached
      = (self.kernel_driver_detached || self.call_detaches T SessionCall.open_call w) := by
  cases hh : self.handle with
  | some h =>
    rw [RazerDevice.open_of_handle T self w h hh]
    simp only [RazerDevice.call_detaches, RazerDevice.is_open, hh, Option.isSome_some]
    cases self.kernel_driver_detached <;> simp
  | none =>
    unfold RazerDevice.open
    rw [hh]
    simp only [RazerDevice.call_detaches, RazerDevice.is_open, hh, Option.isSome_none, true_and]
    cases hk : self.kernel_driver_detached <;> split_ifs <;> simp_all

/-- The function `get_battery_status` changes the flag only through `open()`. -/
theorem RazerDevice.get_battery_status_flag (T : Transport σ) (self : RazerDevice)
    (w : World σ) :
    (self.get_battery_status T w).2.1.kernel_driver_detached
      = (self.open T w).2.1.kernel_driver_detached := by
  simp only [RazerDevice.get_battery_status, RazerDevice.open_if_closed]
  generalize self.open T w = o
  obtain ⟨b, d, w1⟩ := o
  repeat' split
  all_goals rfl

/-- The calls of `close()`, on any session. -/
theorem RazerDevice.close_calls (T : Transport σ) (self : RazerDevice) (w : World σ) :
    (self.close T w).2.calls_since w
      = if self.is_open then
          [UsbCall.libusb_release_interface]
            ++ (if self.kernel_driver_detached then [UsbCall.libusb_attach_kernel_driver]
                else [])
            ++ [UsbCall.libusb_close]
        else [] := by
  cases hh : self.handle with
  | none =>
    rw [RazerDevice.close_of_closed T self w hh]
    simp [RazerDevice.is_open, hh, World.calls_since]
  | some h =>
    unfold RazerDevice.close
    rw [hh]
    cases hk : self.kernel_driver_detached <;> simp [World.calls_since, RazerDevice.is_open, hh]

/-- The flag after `close()`, on any session: cleared when the driver is
reattached, kept otherwise. -/
theorem RazerDevice.close_flag (T : Transport σ) (self : RazerDevice) (w : World σ) :
    (self.close T w).1.kernel_driver_detached
      = if ((self.close T w).2.calls_since w).any UsbCall.is_attach then false
        else self.kernel_driver_detached := by
  rw [RazerDevice.close_calls]
  cases hh : self.handle with
  | none =>
    rw [RazerDevice.close_of_closed T self w hh]
    simp [RazerDevice.is_open, hh]
  | some h =>
    unfold RazerDevice.close
    rw [hh]
    cases hk : self.kernel_driver_detached <;>
      simp [RazerDevice.is_open, hh, hk, UsbCall.is_attach]

/-- Along every history of calls on a session, the flag says whether the
session has detached the kernel driver and not reattached it since. -/
theorem RazerDevice.history_flag (T : Transport σ) (device : DevicePtr) (info : DeviceInfo)
    (w : World σ) (hist : List ((σ → σ) × SessionCall)) :
    (RazerDevice.history T device info w hist).1.kernel_driver_detached
      = RazerDevice.detached_by_session T device info w hist := by
  induction hist with
  | nil => rfl
  | cons step earlier ih =>
    obtain ⟨env, c⟩ := step
    rw [RazerDevice.history, RazerDevice.detached_by_session]
    cases c with
    | open_call =>
      simp only [RazerDevice.call]
      rw [RazerDevice.open_flag, ih]
    | close_call =>
      simp only [RazerDevice.call]
      rw [RazerDevice.close_flag, ih]
    | battery_call =>
      simp only [RazerDevice.call]
      rw [RazerDevice.get_battery_status_flag, RazerDevice.open_flag, ih]
      rfl

/-- Claim C18. `close()` on an Open session performs, in this order, the
release of the claimed interface, the reattachment of the kernel driver if and
only if the kernel-driver-detached flag is set, and the release of the handle;
afterwards the session is Closed and the flag is cleared. The flag stands for
"this session detached the driver during an `open()` and has not reattached it
since": an `open()` of a Closed session leaves it set exactly when it was set
before or this `open()` acquired the handle, found the driver active and
detached it; and after every history of `open()`, `close()` and
`get_battery_status` calls on a newly constructed session the flag equals
`detached_by_session`, so that `close()` on the Open session reattaches the
driver if and only if the session detached it and has not reattached it. -/
theorem close_open_session (T : Transport σ) (self : RazerDevice) (w : World σ)
    (ho : self.is_open = true) :
    (self.close T w).2.calls_since w
      = [UsbCall.libusb_release_interface]
        ++ (if self.kernel_driver_detached then [UsbCall.libusb_attach_kernel_driver] else [])
        ++ [UsbCall.libusb_close] ∧
    (UsbCall.libusb_attach_kernel_driver ∈ (self.close T w).2.calls_since w
      ↔ self.kernel_driver_detached = true) ∧
    (self.close T w).1.handle = none ∧
    (self.close T w).1.is_open = false ∧
    (self.close T w).1.kernel_driver_detached = false ∧
    (∀ (s0 : RazerDevice) (w0 : World σ), s0.is_open = false →
      ((s0.open T w0).2.1.kernel_driver_detached = true ↔
        (s0.kernel_driver_detached = true ∨
          ((T.libusb_open w0.usb s0.device).1 = LIBUSB_SUCCESS ∧
            (T.libusb_kernel_driver_active (T.libusb_open w0.usb s0.device).2.2).1 = 1 ∧
            (T.libusb_detach_kernel_driver
              (T.libusb_kernel_driver_active (T.libusb_open w0.usb s0.device).2.2).2).1
                = LIBUSB_SUCCESS)))) ∧
    (∀ (device : DevicePtr) (info : DeviceInfo) (w0 : World σ)
        (hist : List ((σ → σ) × SessionCall)),
      (RazerDevice.history T device info w0 hist).1.kernel_driver_detached
        = RazerDevice.detached_by_session T device info w0 hist) ∧
    (∀ (device : DevicePtr) (info : DeviceInfo) (w0 : World σ)
        (hist : List ((σ → σ) × SessionCall)) (w1 : World σ),
      (RazerDevice.history T device info w0 hist).1.is_open = true →
      (UsbCall.libusb_attach_kernel_driver
          ∈ ((RazerDevice.history T device info w0 hist).1.close T w1).2.calls_since w1
        ↔ RazerDevice.detached_by_session T device info w0 hist = true)) := by
  have hlog : ∀ (s1 : RazerDevice) (w1 : World σ), s1.is_open = true →
      (s1.close T w1).2.calls_since w1
        = [UsbCall.libusb_release_interface]
          ++ (if s1.kernel_driver_detached then [UsbCall.libusb_attach_kernel_driver] else [])
          ++ [UsbCall.libusb_close] := by
    intro s1 w1 h1
    rw [RazerDevice.close_calls, h1, if_pos rfl]
  have hmem : ∀ (s1 : RazerDevice) (w1 : World σ), s1.is_open = true →
      (UsbCall.libusb_attach_kernel_driver ∈ (s1.close T w1).2.calls_since w1
        ↔ s1.kernel_driver_detached = true) := by
    intro s1 w1 h1
    rw [hlog s1 w1 h1]
    cases hk : s1.kernel_driver_detached <;> simp
  have hflag : (self.close T w).1.kernel_driver_detached = false := by
    rw [RazerDevice.close_flag, hlog self w ho]
    cases hk : self.kernel_driver_detached <;> simp [UsbCall.is_attach]
  have hnone := RazerDevice.close_handle T self w
  refine ⟨hlog self w ho, hmem self w ho, hnone, by simp [RazerDevice.is_open, hnone], hflag,
    ?_, RazerDevice.history_flag T, ?_⟩
  · intro s0 w0 hc
    rw [RazerDevice.open_flag]
    simp [RazerDevice.call_detaches, hc]
  · intro device info w0 hist w1 h1
    rw [hmem _ w1 h1, RazerDevice.history_flag]

/-- A session that detached the kernel driver when it opened: `close()`
releases the interface, reattaches the driver and releases the handle. And a
session whose first `open()` detached the driver and failed at the claim, and
whose second `open()` succeeded without detaching: it has detached the driver
and not reattached it, and `close()` reattaches it. -/
theorem close_open_session_witness :
    (World.calls_since (RazerDevice.close (stubDevice 0 1 0 0)
        (RazerDevice.open (stubDevice 0 1 0 0)
          (RazerDevice.new 0 DeviceInfo.default) ⟨(), []⟩).2.1 ⟨(), []⟩).2 ⟨(), []⟩
      = [UsbCall.libusb_release_interface]
        ++ (if (RazerDevice.open (stubDevice 0 1 0 0)
              (RazerDevice.new 0 DeviceInfo.default) ⟨(), []⟩).2.1.kernel_driver_detached
            then [UsbCall.libusb_attach_kernel_driver] else [])
        ++ [UsbCall.libusb_close] ∧
      (RazerDevice.open (stubDevice 0 1 0 0)
        (RazerDevice.new 0 DeviceInfo.default) ⟨(), []⟩).2.1.kernel_driver_detached = true) ∧
    ∀ w1 : World (Bool × Nat),
      UsbCall.libusb_attach_kernel_driver
        ∈ World.calls_since (RazerDevice.close busyOnceDevice
            (RazerDevice.history busyOnceDevice 0 DeviceInfo.default ⟨(true, 0), []⟩
              [(fun s => s, SessionCall.open_call), (fun s => s, SessionCall.open_call)]).1
            w1).2 w1 :=
  have t := close_open_session (stubDevice 0 1 0 0)
    (RazerDevice.open (stubDevice 0 1 0 0)
      (RazerDevice.new 0 DeviceInfo.default) ⟨(), []⟩).2.1 ⟨(), []⟩ (by decide)
  have u := close_open_session busyOnceDevice
    { RazerDevice.new 0 DeviceInfo.default with handle := some 1 } ⟨(true, 0), []⟩ rfl
  ⟨⟨t.1, (t.2.2.2.2.2.1 (RazerDevice.new 0 DeviceInfo.default) ⟨(), []⟩ rfl).mpr
      (Or.inr ⟨by decide, by decide, by decide⟩)⟩,
    fun w1 => (u.2.2.2.2.2.2.2 0 DeviceInfo.default ⟨(true, 0), []⟩
      [(fun s => s, SessionCall.open_call), (fun s => s, SessionCall.open_call)] w1
      (by decide)).mpr (by decide)⟩

/-! ### Calls made by the detection -/

/-- A probe can only succeed on a session that holds a handle. -/
theorem RazerDevice.probe_true_handle (T : Transport σ) (self : RazerDevice) (id : Byte)
    (w : World σ) (hp : (self.probe T id w).1 = true) : ∃ h, self.handle = some h := by
  cases hh : self.handle with
  | some h => exact ⟨h, rfl⟩
  | none =>
    exfalso
    unfold RazerDevice.probe RazerDevice.send_report at hp
    rw [hh] at hp
    simp at hp

/-- On an open session a probe extends the log by calls of which exactly one
is an outbound transfer, carrying the battery query of the probed id. -/
theorem RazerDevice.probe_log (T : Transport σ) (self : RazerDevice) (id : Byte)
    (w : World σ) (h : Handle) (hh : self.handle = some h) :
    ∃ e, (self.probe T id w).2.log = w.log ++ e ∧
      sent_reports e = [create_battery_query id] := by
  simp only [RazerDevice.probe, RazerDevice.send_report_open T self _ _ h hh,
    RazerDevice.receive_report_open T self _ h hh]
  by_cases hs : 0 ≤ (T.control_transfer_out w.usb (create_battery_query id)).1
  · refine ⟨[UsbCall.control_transfer_out (create_battery_query id),
      UsbCall.control_transfer_in], ?_, rfl⟩
    simp only [hs, decide_True, if_true]
    split <;> simp
  · refine ⟨[UsbCall.control_transfer_out (create_battery_query id)], ?_, rfl⟩
    simp [hs]

/-- On an open session the worlds of the successive probes extend the log of
the initial world by the battery queries of the candidates probed so far. -/
theorem RazerDevice.world_at_log (T : Transport σ) (self : RazerDevice) (w : World σ)
    (h : Handle) (hh : self.handle = some h) :
    ∀ k, k ≤ ids.length → ∃ e, (self.world_at T w k).log = w.log ++ e ∧
      sent_reports e = (ids.take k).map create_battery_query := by
  intro k
  induction k with
  | zero => intro _; exact ⟨[], by simp [RazerDevice.world_at], rfl⟩
  | succ k ih =>
    intro hk
    obtain ⟨e, he, hse⟩ := ih (Nat.le_of_succ_le hk)
    obtain ⟨e1, he1, hse1⟩ :=
      RazerDevice.probe_log T self (ids.getD k 0) (self.world_at T w k) h hh
    refine ⟨e ++ e1, ?_, ?_⟩
    · rw [RazerDevice.world_at, he1, he, List.append_assoc]
    · have hk4 : k < 4 := hk
      have htake : (ids.take (k + 1)).map create_battery_query
          = (ids.take k).map create_battery_query ++ [create_battery_query (ids.getD k 0)] := by
        interval_cases k <;> rfl
      rw [htake, ← hse, ← hse1]
      simp [sent_reports]

/-- The world `detect_transaction_id` leaves: that of the first successful
probe, or that of the last probe when none succeeds. -/
theorem RazerDevice.detect_transaction_id_world (T : Transport σ) (self : RazerDevice)
    (w : World σ) :
    (self.detect_transaction_id T w).2 =
      if (self.probe T 0x1f (self.world_at T w 0)).1 then self.world_at T w 1
      else if (self.probe T 0x3f (self.world_at T w 1)).1 then self.world_at T w 2
      else if (self.probe T 0x9f (self.world_at T w 2)).1 then self.world_at T w 3
      else self.world_at T w 4 := by
  have e4 : self.world_at T w 4 = (self.probe T 0xff (self.world_at T w 3)).2 := rfl
  have e3 : self.world_at T w 3 = (self.probe T 0x9f (self.world_at T w 2)).2 := rfl
  have e2 : self.world_at T w 2 = (self.probe T 0x3f (self.world_at T w 1)).2 := rfl
  have e1 : self.world_at T w 1 = (self.probe T 0x1f (self.world_at T w 0)).2 := rfl
  have e0 : self.world_at T w 0 = w := rfl
  rw [e4, e3, e2, e1, e0]
  unfold RazerDevice.detect_transaction_id
  simp only [ids]
  rw [RazerDevice.detect_loop_cons]
  by_cases p0 : (self.probe T 0x1f w).1 = true
  · simp only [p0, if_true, if_false, Bool.false_eq_true]
  · simp only [p0, if_false, Bool.false_eq_true]
    rw [RazerDevice.detect_loop_cons]
    by_cases p1 : (self.probe T 0x3f (self.probe T 0x1f w).2).1 = true
    · simp only [p1, if_true, if_false, Bool.false_eq_true]
    · simp only [p1, if_false, Bool.false_eq_true]
      rw [RazerDevice.detect_loop_cons]
      by_cases p2 : (self.probe T 0x9f (self.probe T 0x3f (self.probe T 0x1f w).2).2).1 = true
      · simp only [p2, if_true, if_false, Bool.false_eq_true]
      · simp only [p2, if_false, Bool.false_eq_true]
        rw [RazerDevice.detect_loop_cons]
        by_cases p3 : (self.probe T 0xff
            (self.probe T 0x9f (self.probe T 0x3f (self.probe T 0x1f w).2).2).2).1 = true
        · simp only [p3, if_true, if_false, Bool.false_eq_true]
        · simp only [p3, if_false, Bool.false_eq_true]
          rw [RazerDevice.detect_loop]

/-- When the candidate at position `k` is the first whose probe succeeds, the
detection returns it and leaves the world of that probe. -/
theorem RazerDevice.detect_first_success (T : Transport σ) (self : RazerDevice) (w : World σ)
    (k : Nat) (hk : k < ids.length)
    (hfail : ∀ j, j < k → (self.probe T (ids.getD j 0) (self.world_at T w j)).1 = false)
    (hok : (self.probe T (ids.getD k 0) (self.world_at T w k)).1 = true) :
    self.detect_transaction_id T w = (ids.getD k 0, self.world_at T w (k + 1)) := by
  have i0 : ids.getD 0 0 = 0x1f := rfl
  have i1 : ids.getD 1 0 = 0x3f := rfl
  have i2 : ids.getD 2 0 = 0x9f := rfl
  have i3 : ids.getD 3 0 = 0xff := rfl
  have hk4 : k < 4 := hk
  apply Prod.ext
  · rw [RazerDevice.detect_transaction_id_cascade]
    interval_cases k
    · rw [i0] at hok ⊢
      simp only [hok, if_true]
    · have f0 := hfail 0 (by decide)
      rw [i0] at f0
      rw [i1] at hok ⊢
      simp only [f0, hok, if_true, if_false, Bool.false_eq_true]
    · have f0 := hfail 0 (by decide)
      have f1 := hfail 1 (by decide)
      rw [i0] at f0
      rw [i1] at f1
      rw [i2] at hok ⊢
      simp only [f0, f1, hok, if_true, if_false, Bool.false_eq_true]
    · have f0 := hfail 0 (by decide)
      have f1 := hfail 1 (by decide)
      have f2 := hfail 2 (by decide)
      rw [i0] at f0
      rw [i1] at f1
      rw [i2] at f2
      rw [i3] at hok ⊢
      simp only [f0, f1, f2, hok, if_true, if_false, Bool.false_eq_true]
  · rw [RazerDevice.detect_transaction_id_world]
    interval_cases k
    · rw [i0] at hok
      simp only [hok, if_true]
    · have f0 := hfail 0 (by decide)
      rw [i0] at f0
      rw [i1] at hok
      simp only [f0, hok, if_true, if_false, Bool.false_eq_true]
    · have f0 := hfail 0 (by decide)
      have f1 := hfail 1 (by decide)
      rw [i0] at f0
      rw [i1] at f1
      rw [i2] at hok
      simp only [f0, f1, hok, if_true, if_false, Bool.false_eq_true]
    · have f0 := hfail 0 (by decide)
      have f1 := hfail 1 (by decide)
      have f2 := hfail 2 (by decide)
      rw [i0] at f0
      rw [i1] at f1
      rw [i2] at f2
      simp only [f0, f1, f2, if_false, Bool.false_eq_true]

/-- A probe on the simulated device succeeds exactly for the accepted id. -/
theorem simDevice_probe (accepted level id : Byte) (self : RazerDevice)
    (w : World (Option Byte)) (h : Handle) (hh : self.handle = some h) :
    (self.probe (simDevice accepted level) id w).1 = decide (id = accepted) := by
  have e : (create_battery_query id).transaction_id = id := rfl
  simp only [RazerDevice.probe, RazerDevice.send_report_open _ self _ _ h hh,
    RazerDevice.receive_report_open _ self _ h hh]
  by_cases ha : id = accepted
  · subst ha
    simp [simDevice, e, get_battery_raw, Report.zero]
  · simp [simDevice, e, ha, Report.zero]

/-- Claim C11. `detect_transaction_id` stops probing as soon as a candidate is
accepted: if the candidate at position `k` (0-based, so the `k + 1`-th) is the
first accepted one, it is returned, exactly `k + 1` battery queries are sent,
those of the first `k + 1` candidates in order, and none carries a later
candidate. On an open session with a fake transport that answers successfully
only to `0x9f` it returns `0x9f` after exactly three probes and sends no query
with id `0xff`. -/
theorem detect_transaction_id_stops_at_first_accepted :
    (∀ (T : Transport σ) (self : RazerDevice) (w : World σ) (k : Nat), k < ids.length →
      (∀ j, j < k → (self.probe T (ids.getD j 0) (self.world_at T w j)).1 = false) →
      (self.probe T (ids.getD k 0) (self.world_at T w k)).1 = true →
      (self.detect_transaction_id T w).1 = ids.getD k 0 ∧
      sent_reports ((self.detect_transaction_id T w).2.calls_since w)
        = (ids.take (k + 1)).map create_battery_query ∧
      (sent_reports ((self.detect_transaction_id T w).2.calls_since w)).length = k + 1 ∧
      (∀ j, k < j → j < ids.length →
        ∀ r ∈ sent_reports ((self.detect_transaction_id T w).2.calls_since w),
          r.transaction_id ≠ ids.getD j 0)) ∧
    (∀ (level : Byte) (self : RazerDevice) (w : World (Option Byte)), self.is_open = true →
      (self.detect_transaction_id (simDevice 0x9f level) w).1 = 0x9f ∧
      sent_reports ((self.detect_transaction_id (simDevice 0x9f level) w).2.calls_since w)
        = [create_battery_query 0x1f, create_battery_query 0x3f, create_battery_query 0x9f] ∧
      (∀ r ∈ sent_reports
          ((self.detect_transaction_id (simDevice 0x9f level) w).2.calls_since w),
        r.transaction_id ≠ 0xff)) := by
  have general : ∀ (τ : Type) (T : Transport τ) (self : RazerDevice) (w : World τ) (k : Nat),
      k < ids.length →
      (∀ j, j < k → (self.probe T (ids.getD j 0) (self.world_at T w j)).1 = false) →
      (self.probe T (ids.getD k 0) (self.world_at T w k)).1 = true →
      (self.detect_transaction_id T w).1 = ids.getD k 0 ∧
      sent_reports ((self.detect_transaction_id T w).2.calls_since w)
        = (ids.take (k + 1)).map create_battery_query := by
    intro τ T self w k hk hfail hok
    obtain ⟨h, hh⟩ := RazerDevice.probe_true_handle T self _ _ hok
    obtain ⟨e, he, hse⟩ := RazerDevice.world_at_log T self w h hh (k + 1) hk
    rw [RazerDevice.detect_first_success T self w k hk hfail hok]
    refine ⟨rfl, ?_⟩
    simp only [World.calls_since, he, List.drop_left]
    exact hse
  constructor
  · intro T self w k hk hfail hok
    obtain ⟨h1, h2⟩ := general σ T self w k hk hfail hok
    refine ⟨h1, h2, ?_, ?_⟩
    · rw [h2, List.length_map, List.length_take]
      exact Nat.min_eq_left hk
    · intro j hkj hj r hr
      rw [h2] at hr
      have hk4 : k < 4 := hk
      have hj4 : j < 4 := hj
      obtain ⟨t, ht, rfl⟩ := List.mem_map.mp hr
      have key : ∀ t ∈ ids.take (k + 1), t ≠ ids.getD j 0 := by
        interval_cases k <;> interval_cases j <;> simp [ids]
      exact key t ht
  · intro level self w ho
    obtain ⟨h, hh⟩ : ∃ h, self.handle = some h := Option.isSome_iff_exists.mp ho
    have i0 : ids.getD 0 0 = 0x1f := rfl
    have i1 : ids.getD 1 0 = 0x3f := rfl
    have i2 : ids.getD 2 0 = 0x9f := rfl
    obtain ⟨h1, h2⟩ := general (Option Byte) (simDevice 0x9f level) self w 2 (by decide)
      (by
        intro j hj
        rw [simDevice_probe 0x9f level _ self _ h hh]
        interval_cases j
        · rw [i0]; decide
        · rw [i1]; decide)
      (by rw [simDevice_probe 0x9f level _ self _ h hh, i2]; decide)
    refine ⟨h1, h2, ?_⟩
    intro r hr
    rw [h2] at hr
    simp only [ids, List.take, List.map, List.mem_cons, List.mem_singleton] at hr
    have e : ∀ t, (create_battery_query t).transaction_id = t := fun _ => rfl
    rcases hr with rfl | rfl | rfl | hr
    · rw [e]; decide
    · rw [e]; decide
    · rw [e]; decide
    · cases hr

/-- An open session whose fake transport answers only to `0x9f`: three
probes, `0x9f` returned. -/
theorem detect_transaction_id_stops_at_first_accepted_witness :
    (RazerDevice.detect_transaction_id (simDevice 0x9f 200)
        { RazerDevice.new 0 DeviceInfo.default with handle := some 1 } ⟨none, []⟩).1 = 0x9f ∧
    (sent_reports (World.calls_since (RazerDevice.detect_transaction_id (simDevice 0x9f 200)
        { RazerDevice.new 0 DeviceInfo.default with handle := some 1 } ⟨none, []⟩).2
        ⟨none, []⟩)).length = 3 :=
  have t := (@detect_transaction_id_stops_at_first_accepted (Option Byte)).1
    (simDevice 0x9f 200) { RazerDevice.new 0 DeviceInfo.default with handle := some 1 }
    ⟨none, []⟩ 2 (by decide) (fun j hj => by interval_cases j <;> decide) (by decide)
  ⟨t.1, t.2.2.1⟩

/-! ### Caching of the negotiated id -/

/-- The function `open()` extends the log by calls that carry no report. -/
theorem RazerDevice.open_log (T : Transport σ) (self : RazerDevice) (w : World σ) :
    ∃ e, (self.open T w).2.2.log = w.log ++ e ∧ sent_reports e = [] := by
  cases hh : self.handle with
  | some h =>
    rw [RazerDevice.open_of_handle T self w h hh]
    exact ⟨[], by simp, rfl⟩
  | none =>
    unfold RazerDevice.open
    rw [hh]
    simp only []
    split_ifs
    · exact ⟨[UsbCall.libusb_open self.device], rfl, rfl⟩
    · exact ⟨[UsbCall.libusb_open self.device, UsbCall.libusb_kernel_driver_active,
        UsbCall.libusb_detach_kernel_driver, UsbCall.libusb_claim_interface,
        UsbCall.libusb_close], by simp, rfl⟩
    · exact ⟨[UsbCall.libusb_open self.device, UsbCall.libusb_kernel_driver_active,
        UsbCall.libusb_detach_kernel_driver, UsbCall.libusb_claim_interface], by simp, rfl⟩
    · exact ⟨[UsbCall.libusb_open self.device, UsbCall.libusb_kernel_driver_active,
        UsbCall.libusb_detach_kernel_driver, UsbCall.libusb_claim_interface,
        UsbCall.libusb_close], by simp, rfl⟩
    · exact ⟨[UsbCall.libusb_open self.device, UsbCall.libusb_kernel_driver_active,
        UsbCall.libusb_detach_kernel_driver, UsbCall.libusb_claim_interface], by simp, rfl⟩
    · exact ⟨[UsbCall.libusb_open self.device, UsbCall.libusb_kernel_driver_active,
        UsbCall.libusb_claim_interface, UsbCall.libusb_close], by simp, rfl⟩
    · exact ⟨[UsbCall.libusb_open self.device, UsbCall.libusb_kernel_driver_active,
        UsbCall.libusb_claim_interface], by simp, rfl⟩

/-- A call of `get_battery_status` on a session whose id is not `0x1f` and
that is open or opens: the identity is kept, the session stays open, and the
only report sent is the battery query with the session's id. -/
theorem RazerDevice.get_battery_status_known_id (T : Transport σ) (self : RazerDevice)
    (w : World σ) (hid : self.device_info.transaction_id ≠ 0x1f)
    (hopen : (self.open T w).1 = true) :
    (self.get_battery_status T w).2.1 = (self.open T w).2.1 ∧
    ∃ e, (self.get_battery_status T w).2.2.log = w.log ++ e ∧
      sent_reports e = [create_battery_query self.device_info.transaction_id] := by
  obtain ⟨⟨hd, hhd⟩, hinfo⟩ := RazerDevice.open_true T self w hopen
  obtain ⟨e0, he0, hs0⟩ := RazerDevice.open_log T self w
  rw [← hinfo] at hid ⊢
  simp only [RazerDevice.get_battery_status, RazerDevice.open_if_closed]
  generalize self.open T w = o at hopen hhd he0 hid ⊢
  obtain ⟨b, d, w1⟩ := o
  simp only at hopen hhd he0 hid ⊢
  subst hopen
  have hsent : sent_reports (e0 ++ [UsbCall.control_transfer_out
      (create_battery_query d.device_info.transaction_id)])
        = [create_battery_query d.device_info.transaction_id] := by
    simp [sent_reports] at hs0 ⊢
    exact hs0
  have hsent2 : sent_reports (e0 ++ [UsbCall.control_transfer_out
      (create_battery_query d.device_info.transaction_id), UsbCall.control_transfer_in])
        = [create_battery_query d.device_info.transaction_id] := by
    simp [sent_reports] at hs0 ⊢
    exact hs0
  simp only [not_true_eq_false, if_false, hid, RazerDevice.send_report_open T d _ _ hd hhd,
    RazerDevice.receive_report_open T d _ hd hhd, he0]
  by_cases hs : 0 ≤ (T.control_transfer_out w1.usb
      (create_battery_query d.device_info.transaction_id)).1
  · simp only [hs, decide_True, if_true]
    refine ⟨?_, e0 ++ [UsbCall.control_transfer_out
      (create_battery_query d.device_info.transaction_id), UsbCall.control_transfer_in],
      ?_, hsent2⟩
    · by_cases hr : 0 ≤ (T.control_transfer_in (T.control_transfer_out w1.usb
        (create_battery_query d.device_info.transaction_id)).2).1
      · simp only [hr, if_true, not_true_eq_false, if_false]
        split_ifs <;> rfl
      · simp only [hr, if_false, not_true_eq_false]
    · by_cases hr : 0 ≤ (T.control_transfer_in (T.control_transfer_out w1.usb
        (create_battery_query d.device_info.transaction_id)).2).1
      · simp only [hr, if_true, not_true_eq_false, if_false]
        split_ifs <;> simp
      · simp only [hr, if_false, not_true_eq_false]
        simp
  · simp only [hs, decide_False, Bool.false_eq_true, if_false]
    exact ⟨rfl, e0 ++ [UsbCall.control_transfer_out
      (create_battery_query d.device_info.transaction_id)], by simp, hsent⟩

/-- The function `open()` never changes the device identity. -/
theorem RazerDevice.open_device_info (T : Transport σ) (self : RazerDevice) (w : World σ) :
    (self.open T w).2.1.device_info = self.device_info := by
  cases hh : self.handle with
  | some h => rw [RazerDevice.open_of_handle T self w h hh]
  | none => exact (RazerDevice.open_closed_facts T self w hh).1

/-- When `open()` fails, `get_battery_status` ends there. -/
theorem RazerDevice.get_battery_status_of_open_false (T : Transport σ) (self : RazerDevice)
    (w : World σ) (hf : (self.open T w).1 = false) :
    self.get_battery_status T w = (none, (self.open T w).2) := by
  unfold RazerDevice.get_battery_status
  simp only [RazerDevice.open_if_closed, hf, Bool.false_eq_true, not_false_eq_true, if_true]

/-- A call of `get_battery_status` on a session whose id is `0x1f` and that is
open or opens stores the id the detection returns and keeps the handle. -/
theorem RazerDevice.get_battery_status_default_id (T : Transport σ) (self : RazerDevice)
    (w : World σ) (hid : self.device_info.transaction_id = 0x1f)
    (hopen : (self.open T w).1 = true) :
    (self.get_battery_status T w).2.1.device_info.transaction_id
      = ((self.open T w).2.1.detect_transaction_id T (self.open T w).2.2).1 ∧
    (self.get_battery_status T w).2.1.handle = (self.open T w).2.1.handle := by
  have hinfo := RazerDevice.open_device_info T self w
  rw [← hinfo] at hid
  simp only [RazerDevice.get_battery_status, RazerDevice.open_if_closed]
  generalize self.open T w = o at hopen hid ⊢
  obtain ⟨b, d, w1⟩ := o
  simp only at hopen hid ⊢
  subst hopen
  simp only [not_true_eq_false, if_false, hid, if_true]
  repeat' split
  all_goals exact ⟨rfl, rfl⟩

/-- The extractors read `status`, `data_size` and `arguments[1]` only. -/
theorem Report.SamePayload.extract {r r' : Report} (h : r.SamePayload r') :
    get_battery_raw r = get_battery_raw r' ∧ get_battery_percent r = get_battery_percent r' := by
  obtain ⟨h1, _, _, h4, h5⟩ := h
  rw [get_battery_percent_eq, get_battery_percent_eq, get_battery_raw_eq, get_battery_raw_eq,
    h1, h4, h5]
  exact ⟨rfl, rfl⟩

/-- Tampering with the responses does not change `open()`. -/
theorem RazerDevice.open_tamper (T : Transport σ) (f : Report → Report) (self : RazerDevice)
    (w : World σ) : self.open (T.tamper_responses f) w = self.open T w := rfl

/-- Tampering with the responses does not change `send_report`. -/
theorem RazerDevice.send_report_tamper (T : Transport σ) (f : Report → Report)
    (self : RazerDevice) (q : Report) (w : World σ) :
    self.send_report (T.tamper_responses f) q w = self.send_report T q w := rfl

/-- With tampered responses `receive_report` returns the tampered report and
leaves the same world. -/
theorem RazerDevice.receive_report_tamper (T : Transport σ) (f : Report → Report)
    (self : RazerDevice) (w : World σ) :
    self.receive_report (T.tamper_responses f) w
      = ((self.receive_report T w).1.map f, (self.receive_report T w).2) := by
  unfold RazerDevice.receive_report
  cases self.handle with
  | none => rfl
  | some h =>
    simp only [Transport.tamper_responses]
    split_ifs <;> rfl

/-- Tampering that keeps the payload does not change a probe. -/
theorem RazerDevice.probe_tamper (T : Transport σ) (f : Report → Report)
    (hf : ∀ r, (f r).SamePayload r) (self : RazerDevice) (id : Byte) (w : World σ) :
    self.probe (T.tamper_responses f) id w = self.probe T id w := by
  unfold RazerDevice.probe
  simp only [RazerDevice.send_report_tamper, RazerDevice.receive_report_tamper]
  split_ifs
  · cases (self.receive_report T (self.send_report T (create_battery_query id) w).2).1 with
    | none => rfl
    | some resp =>
      simp only [Option.map_some']
      rw [(hf resp).extract.1, (hf resp).1]
  · rfl

/-- Tampering that keeps the payload does not change the detection. -/
theorem RazerDevice.detect_transaction_id_tamper (T : Transport σ) (f : Report → Report)
    (hf : ∀ r, (f r).SamePayload r) (self : RazerDevice) (w : World σ) :
    self.detect_transaction_id (T.tamper_responses f) w = self.detect_transaction_id T w := by
  have loop : ∀ (l : List Byte) (w1 : World σ),
      self.detect_loop (T.tamper_responses f) l w1 = self.detect_loop T l w1 := by
    intro l
    induction l with
    | nil => intro w1; rfl
    | cons id rest ih =>
      intro w1
      rw [RazerDevice.detect_loop_cons, RazerDevice.detect_loop_cons,
        RazerDevice.probe_tamper T f hf, ih]
  unfold RazerDevice.detect_transaction_id
  rw [loop]

/-- Tampering that keeps the payload does not change what `get_battery_status`
returns. -/
theorem RazerDevice.get_battery_status_tamper (T : Transport σ) (f : Report → Report)
    (hf : ∀ r, (f r).SamePayload r) (self : RazerDevice) (w : World σ) :
    (self.get_battery_status (T.tamper_responses f) w).1 = (self.get_battery_status T w).1 := by
  have hq : self.query_entry (T.tamper_responses f) w = self.query_entry T w := by
    unfold RazerDevice.query_entry
    simp only [RazerDevice.open_tamper, RazerDevice.detect_transaction_id_tamper T f hf]
  rw [RazerDevice.get_battery_status_result, RazerDevice.get_battery_status_result, hq]
  cases self.query_entry T w with
  | none => rfl
  | some e =>
    simp only [RazerDevice.send_report_tamper, RazerDevice.receive_report_tamper]
    split_ifs
    · cases (e.1.receive_report T
          (e.1.send_report T (create_battery_query e.1.device_info.transaction_id) e.2).2).1 with
      | none => rfl
      | some resp =>
        simp only [Option.map_some', (hf resp).extract.2]
    · rfl

/-- Claim C26. Response checksums and transaction ids are never verified: two
response reports that differ only in the `crc`, `reserved`, `transaction_id`,
`command_class` or `command_id` bytes get the same `get_battery_raw` and
`get_battery_percent`, so that rewriting those bytes of every response changes
neither what `get_battery_status` returns nor what the negotiation decides. -/
theorem responses_not_verified (r r' : Report) (h : r.SamePayload r') :
    get_battery_raw r = get_battery_raw r' ∧
    get_battery_percent r = get_battery_percent r' ∧
    (∀ tid cc ci c res : Byte,
      get_battery_raw { r with transaction_id := tid, command_class := cc, command_id := ci,
                               crc := c, reserved := res } = get_battery_raw r ∧
      get_battery_percent { r with transaction_id := tid, command_class := cc,
                                   command_id := ci, crc := c, reserved := res }
        = get_battery_percent r) ∧
    (∀ (T : Transport σ) (f : Report → Report), (∀ x, (f x).SamePayload x) →
      ∀ (self : RazerDevice) (w : World σ),
        (self.get_battery_status (T.tamper_responses f) w).1 = (self.get_battery_status T w).1 ∧
        self.detect_transaction_id (T.tamper_responses f) w = self.detect_transaction_id T w) := by
  refine ⟨h.extract.1, h.extract.2, ?_, ?_⟩
  · intro tid cc ci c res
    exact Report.SamePayload.extract ⟨rfl, rfl, rfl, rfl, rfl⟩
  · intro T f hf self w
    exact ⟨RazerDevice.get_battery_status_tamper T f hf self w,
      RazerDevice.detect_transaction_id_tamper T f hf self w⟩

/-- A successful response and its copy with another transaction id, a foreign
command and a wrong `crc` read the same; a device whose every response is
rewritten that way is still read as 78 %. -/
theorem responses_not_verified_witness :
    get_battery_percent
        { Report.zero with status := 0x02, transaction_id := 0x1f, data_size := 2,
                           command_class := 0x07, command_id := 0x80, crc := 0x4d,
                           arguments := fun i => if i = 1 then 200 else 0 }
      = get_battery_percent
        { Report.zero with status := 0x02, transaction_id := 0x3f, data_size := 2,
                           command_class := 0x03, command_id := 0x01, crc := 0xaa,
                           arguments := fun i => if i = 1 then 200 else 0 } ∧
    (RazerDevice.get_battery_status
      ((simDevice 0x1f 200).tamper_responses
        (fun x => { x with transaction_id := 0x3f, crc := 0xaa }))
      (RazerDevice.new 0 DeviceInfo.default) ⟨none, []⟩).1
      = some { percentage := 78, is_charging := false, is_valid := true } :=
  have t := responses_not_verified
    { Report.zero with status := 0x02, transaction_id := 0x1f, data_size := 2,
                       command_class := 0x07, command_id := 0x80, crc := 0x4d,
                       arguments := fun i => if i = 1 then 200 else 0 }
    { Report.zero with status := 0x02, transaction_id := 0x3f, data_size := 2,
                       command_class := 0x03, command_id := 0x01, crc := 0xaa,
                       arguments := fun i => if i = 1 then 200 else 0 }
    ⟨rfl, rfl, rfl, rfl, rfl⟩
  ⟨t.2.1,
    ((t.2.2.2 (simDevice 0x1f 200) (fun x => { x with transaction_id := 0x3f, crc := 0xaa })
      (fun _ => ⟨rfl, rfl, rfl, rfl, rfl⟩)
      (RazerDevice.new 0 DeviceInfo.default) ⟨none, []⟩).1).trans (by decide)⟩

/-! ### A detach that is not rolled back -/

/-- Claim C27. If `open()` detaches the kernel driver successfully and the
interface claim then fails, the session ends Closed with the
kernel-driver-detached flag still set and the driver not reattached; a
`close()` right after makes no transport call, so the driver stays detached;
and the stale flag makes the `close()` after a later successful `open()`
reattach the driver although that later `open()` detached nothing. -/
theorem open_claim_failure_keeps_detached_flag (T : Transport σ) (self : RazerDevice)
    (w : World σ) (hc : self.is_open = false)
    (ho : (T.libusb_open w.usb self.device).1 = LIBUSB_SUCCESS)
    (ha : (T.libusb_kernel_driver_active (T.libusb_open w.usb self.device).2.2).1 = 1)
    (hd : (T.libusb_detach_kernel_driver
      (T.libusb_kernel_driver_active (T.libusb_open w.usb self.device).2.2).2).1
        = LIBUSB_SUCCESS)
    (hcl : (T.libusb_claim_interface (T.libusb_detach_kernel_driver
      (T.libusb_kernel_driver_active (T.libusb_open w.usb self.device).2.2).2).2).1
        ≠ LIBUSB_SUCCESS) :
    (self.open T w).1 = false ∧
    (self.open T w).2.1.is_open = false ∧
    (self.open T w).2.1.kernel_driver_detached = true ∧
    (self.open T w).2.2.calls_since w
      = [UsbCall.libusb_open self.device, UsbCall.libusb_kernel_driver_active,
          UsbCall.libusb_detach_kernel_driver, UsbCall.libusb_claim_interface,
          UsbCall.libusb_close] ∧
    UsbCall.libusb_attach_kernel_driver ∉ (self.open T w).2.2.calls_since w ∧
    (∀ w1 : World σ, RazerDevice.close T (self.open T w).2.1 w1 = ((self.open T w).2.1, w1) ∧
      (RazerDevice.close T (self.open T w).2.1 w1).2.calls_since w1 = []) ∧
    (∀ w2 : World σ, ((self.open T w).2.1.open T w2).1 = true →
      (T.libusb_kernel_driver_active
        (T.libusb_open w2.usb (self.open T w).2.1.device).2.2).1 ≠ 1 →
      UsbCall.libusb_detach_kernel_driver ∉ ((self.open T w).2.1.open T w2).2.2.calls_since w2 ∧
      ((self.open T w).2.1.open T w2).2.1.kernel_driver_detached = true ∧
      ∀ w3 : World σ,
        (RazerDevice.close T ((self.open T w).2.1.open T w2).2.1 w3).2.calls_since w3
          = [UsbCall.libusb_release_interface, UsbCall.libusb_attach_kernel_driver,
              UsbCall.libusb_close]) := by
  have hh : self.handle = none := by
    cases hs : self.handle with
    | none => rfl
    | some h => simp [RazerDevice.is_open, hs] at hc
  have e : self.open T w
      = (false, { self with handle := none, kernel_driver_detached := true },
          ⟨T.libusb_close (T.libusb_claim_interface (T.libusb_detach_kernel_driver
            (T.libusb_kernel_driver_active (T.libusb_open w.usb self.device).2.2).2).2).2,
           w.log ++ [UsbCall.libusb_open self.device] ++ [UsbCall.libusb_kernel_driver_active]
            ++ [UsbCall.libusb_detach_kernel_driver] ++ [UsbCall.libusb_claim_interface]
            ++ [UsbCall.libusb_close]⟩) := by
    unfold RazerDevice.open
    rw [hh]
    simp only [ho, ha, hd, hcl, ne_eq, not_true_eq_false, not_false_eq_true, if_true, if_false]
  rw [e]
  refine ⟨rfl, rfl, rfl, by simp [World.calls_since], by simp [World.calls_since], ?_, ?_⟩
  · intro w1
    rw [RazerDevice.close_of_closed T _ w1 rfl]
    exact ⟨rfl, World.calls_since_self w1⟩
  · intro w2 hok hna
    simp only [] at hok hna ⊢
    have e2 : RazerDevice.open T { self with handle := none, kernel_driver_detached := true } w2
        = (true, { self with handle := some (T.libusb_open w2.usb self.device).2.1,
                             kernel_driver_detached := true },
            ⟨(T.libusb_claim_interface (T.libusb_kernel_driver_active
              (T.libusb_open w2.usb self.device).2.2).2).2,
             w2.log ++ [UsbCall.libusb_open self.device]
              ++ [UsbCall.libusb_kernel_driver_active] ++ [UsbCall.libusb_claim_interface]⟩) := by
      unfold RazerDevice.open at hok ⊢
      simp only [hna, if_false] at hok ⊢
      split_ifs at hok ⊢
      rfl
    rw [e2]
    refine ⟨by simp [World.calls_since], rfl, ?_⟩
    intro w3
    simp [RazerDevice.close, World.calls_since]

/-- A fresh session on a device with a kernel driver whose interface is busy
at the first claim: the failed `open()` leaves the flag set, a retry opens
without detaching, and the `close()` after it reattaches the driver. -/
theorem open_claim_failure_keeps_detached_flag_witness :
    (RazerDevice.open busyOnceDevice
      (RazerDevice.new 0 DeviceInfo.default) ⟨(true, 0), []⟩).2.1.kernel_driver_detached = true ∧
    ∀ w3 : World (Bool × Nat),
      World.calls_since (RazerDevice.close busyOnceDevice
        (RazerDevice.open busyOnceDevice
          (RazerDevice.open busyOnceDevice
            (RazerDevice.new 0 DeviceInfo.default) ⟨(true, 0), []⟩).2.1
          (RazerDevice.open busyOnceDevice
            (RazerDevice.new 0 DeviceInfo.default) ⟨(true, 0), []⟩).2.2).2.1 w3).2 w3
        = [UsbCall.libusb_release_interface, UsbCall.libusb_attach_kernel_driver,
            UsbCall.libusb_close] :=
  have t := open_claim_failure_keeps_detached_flag busyOnceDevice
    (RazerDevice.new 0 DeviceInfo.default) ⟨(true, 0), []⟩ rfl (by decide) (by decide)
    (by decide) (by decide)
  ⟨t.2.2.1, (t.2.2.2.2.2.2 _ (by decide) (by decide)).2.2⟩

/-! ### The transaction id stays a candidate -/

/-- The reports sent over two stretches of a log. -/
theorem sent_reports_append (e1 e2 : List UsbCall) :
    sent_reports (e1 ++ e2) = sent_reports e1 ++ sent_reports e2 := by
  simp [sent_reports]

/-- Candidate queries over two stretches of a log. -/
theorem OnlyCandidateQueries.append {e1 e2 : List UsbCall} (h1 : OnlyCandidateQueries e1)
    (h2 : OnlyCandidateQueries e2) : OnlyCandidateQueries (e1 ++ e2) := by
  intro r hr
  rw [sent_reports_append, List.mem_append] at hr
  rcases hr with hr | hr
  · exact h1 r hr
  · exact h2 r hr

/-- On an open session the detection returns a candidate and sends candidate
queries only. -/
theorem RazerDevice.detect_candidate (T : Transport σ) (self : RazerDevice) (w : World σ)
    (h : Handle) (hh : self.handle = some h) :
    (self.detect_transaction_id T w).1 ∈ ids ∧
    ∃ e, (self.detect_transaction_id T w).2.log = w.log ++ e ∧ OnlyCandidateQueries e := by
  constructor
  · rw [RazerDevice.detect_transaction_id_cascade]
    split_ifs <;> simp [ids]
  · have key : ∀ k, k ≤ ids.length →
        ∃ e, (self.world_at T w k).log = w.log ++ e ∧ OnlyCandidateQueries e := by
      intro k hk
      obtain ⟨e, he, hse⟩ := RazerDevice.world_at_log T self w h hh k hk
      refine ⟨e, he, ?_⟩
      intro r hr
      rw [hse] at hr
      obtain ⟨t, ht, rfl⟩ := List.mem_map.mp hr
      exact ⟨t, List.mem_of_mem_take ht, rfl⟩
    rw [RazerDevice.detect_transaction_id_world]
    split_ifs
    · exact key 1 (by decide)
    · exact key 2 (by decide)
    · exact key 3 (by decide)
    · exact key 4 (by decide)

/-- A call of `get_battery_status` on a session whose id is `0x1f` and that is
open or opens sends candidate queries only. -/
theorem RazerDevice.get_battery_status_default_id_log (T : Transport σ) (self : RazerDevice)
    (w : World σ) (hid : self.device_info.transaction_id = 0x1f)
    (hopen : (self.open T w).1 = true) :
    ∃ e, (self.get_battery_status T w).2.2.log = w.log ++ e ∧ OnlyCandidateQueries e := by
  obtain ⟨⟨hd, hhd⟩, hinfo⟩ := RazerDevice.open_true T self w hopen
  obtain ⟨e0, he0, hs0⟩ := RazerDevice.open_log T self w
  have hq0 : OnlyCandidateQueries e0 := by
    intro r hr
    rw [hs0] at hr
    cases hr
  rw [← hinfo] at hid
  simp only [RazerDevice.get_battery_status, RazerDevice.open_if_closed]
  generalize self.open T w = o at hopen hhd he0 hid ⊢
  obtain ⟨b, d, w1⟩ := o
  simp only at hopen hhd he0 hid ⊢
  subst hopen
  obtain ⟨hmem, e1, he1, hq1⟩ := RazerDevice.detect_candidate T d w1 hd hhd
  simp only [not_true_eq_false, if_false, hid, if_true]
  generalize d.detect_transaction_id T w1 = dt at hmem he1 ⊢
  obtain ⟨t, w2⟩ := dt
  simp only at hmem he1 ⊢
  have hhd1 : ({ d with device_info := { d.device_info with transaction_id := t } } :
      RazerDevice).handle = some hd := hhd
  have hq2 : OnlyCandidateQueries [UsbCall.control_transfer_out (create_battery_query t)] := by
    intro r hr
    simp only [sent_reports, List.filterMap_cons, List.filterMap_nil, List.mem_singleton] at hr
    exact ⟨t, hmem, hr⟩
  have hq3 : OnlyCandidateQueries [UsbCall.control_transfer_in] := by
    intro r hr
    simp [sent_reports] at hr
  simp only [RazerDevice.send_report_open T _ _ _ hd hhd1,
    RazerDevice.receive_report_open T _ _ hd hhd1, he1, he0]
  by_cases hs : 0 ≤ (T.control_transfer_out w2.usb (create_battery_query t)).1
  · simp only [hs, decide_True, if_true, not_true_eq_false, if_false]
    refine ⟨e0 ++ e1 ++ [UsbCall.control_transfer_out (create_battery_query t)]
      ++ [UsbCall.control_transfer_in], ?_, ((hq0.append hq1).append hq2).append hq3⟩
    by_cases hr : 0 ≤ (T.control_transfer_in
        (T.control_transfer_out w2.usb (create_battery_query t)).2).1
    · simp only [hr, if_true]
      split_ifs <;> simp
    · simp only [hr, if_false]
      simp
  · simp only [hs, decide_False, Bool.false_eq_true, not_false_eq_true, if_true]
    exact ⟨e0 ++ e1 ++ [UsbCall.control_transfer_out (create_battery_query t)], by simp,
      (hq0.append hq1).append hq2⟩

/-- One call of `get_battery_status` keeps the id among the candidates and
sends candidate queries only. -/
theorem RazerDevice.get_battery_status_step (T : Transport σ) (self : RazerDevice)
    (w : World σ) (hid : self.device_info.transaction_id ∈ ids) :
    (self.get_battery_status T w).2.1.device_info.transaction_id ∈ ids ∧
    ∃ e, (self.get_battery_status T w).2.2.log = w.log ++ e ∧ OnlyCandidateQueries e := by
  by_cases hopen : (self.open T w).1 = true
  · obtain ⟨⟨hd, hhd⟩, hinfo⟩ := RazerDevice.open_true T self w hopen
    by_cases h1f : self.device_info.transaction_id = 0x1f
    · refine ⟨?_, RazerDevice.get_battery_status_default_id_log T self w h1f hopen⟩
      rw [(RazerDevice.get_battery_status_default_id T self w h1f hopen).1]
      exact (RazerDevice.detect_candidate T _ _ hd hhd).1
    · obtain ⟨g1, e, g2, g3⟩ := RazerDevice.get_battery_status_known_id T self w h1f hopen
      refine ⟨by rw [g1, hinfo]; exact hid, e, g2, ?_⟩
      intro r hr
      rw [g3, List.mem_singleton] at hr
      exact ⟨_, hid, hr⟩
  · have hf : (self.open T w).1 = false := by
      cases hb : (self.open T w).1 with
      | true => exact absurd hb hopen
      | false => rfl
    obtain ⟨e, he, hse⟩ := RazerDevice.open_log T self w
    rw [RazerDevice.get_battery_status_of_open_false T self w hf]
    refine ⟨by simp only [RazerDevice.open_device_info]; exact hid, e, he, ?_⟩
    intro r hr
    rw [hse] at hr
    cases hr

/-- Any number of `get_battery_status` calls, with any changes of the
transport in between, keeps the id among the candidates and sends candidate
queries only. -/
theorem RazerDevice.poll_candidate (T : Transport σ) (self : RazerDevice) (w : World σ)
    (hid : self.device_info.transaction_id ∈ ids) (envs : List (σ → σ)) :
    (self.poll T w envs).1.device_info.transaction_id ∈ ids ∧
    ∃ e, (self.poll T w envs).2.log = w.log ++ e ∧ OnlyCandidateQueries e := by
  induction envs with
  | nil =>
    refine ⟨hid, [], by simp [RazerDevice.poll], ?_⟩
    intro r hr
    cases hr
  | cons env earlier ih =>
    obtain ⟨h1, e, he, hq⟩ := ih
    obtain ⟨g1, e1, g2, g3⟩ := RazerDevice.get_battery_status_step T (self.poll T w earlier).1
      ⟨env (self.poll T w earlier).2.usb, (self.poll T w earlier).2.log⟩ h1
    refine ⟨g1, e ++ e1, ?_, hq.append g3⟩
    rw [RazerDevice.poll, g2, he, List.append_assoc]

/-- Claim C28. For a session created from a default-initialised identity
(transaction id `0x1f`), for every transport behaviour and every sequence of
`get_battery_status` calls, the session's transaction id stays in the candidate
set `{0x1f, 0x3f, 0x9f, 0xff}` and every report handed to the transport is
`create_battery_query t` for some `t` of that set, hence a 90-byte battery
query with a valid checksum. -/
theorem transaction_id_stays_candidate (T : Transport σ) (self : RazerDevice) (w : World σ)
    (envs : List (σ → σ)) (h0 : self.device_info.transaction_id = 0x1f) :
    ids = [0x1f, 0x3f, 0x9f, 0xff] ∧
    (self.poll T w envs).1.device_info.transaction_id ∈ ids ∧
    (∀ r ∈ sent_reports ((self.poll T w envs).2.calls_since w),
      ∃ t ∈ ids, r = create_battery_query t ∧ r.bytes.length = 90 ∧
        r.command_class = CLASS_MISC ∧ r.command_id = CMD_GET_BATTERY ∧
        calculate_crc r = r.crc) := by
  have hid : self.device_info.transaction_id ∈ ids := by rw [h0]; simp [ids]
  obtain ⟨h1, e, he, hq⟩ := RazerDevice.poll_candidate T self w hid envs
  refine ⟨rfl, h1, ?_⟩
  intro r hr
  rw [World.calls_since, he, List.drop_left] at hr
  obtain ⟨t, ht, rfl⟩ := hq r hr
  refine ⟨t, ht, rfl, Report.bytes_length _, rfl, rfl, ?_⟩
  rw [create_battery_query_eq]
  simp only [calculate_crc_mk]

/-- Three calls on a fresh session whose simulated device accepts only `0x9f`:
the id ends in the candidate set. -/
theorem transaction_id_stays_candidate_witness :
    (RazerDevice.poll (simDevice 0x9f 200) (RazerDevice.new 0 DeviceInfo.default) ⟨none, []⟩
      [fun s => s, fun _ => none, fun s => s]).1.device_info.transaction_id ∈ ids :=
  (transaction_id_stays_candidate (simDevice 0x9f 200) (RazerDevice.new 0 DeviceInfo.default)
    ⟨none, []⟩ [fun s => s, fun _ => none, fun s => s] rfl).2.1

end SessionTheorems

/-! ## Device discovery -/

section DiscoveryTheorems
variable {σ : Type}

/-- Once the device descriptor is read, `read_device_info` reports its vendor
and product id whatever else happens. -/
theorem DeviceManager.read_device_info_ids (B : Bus σ) (device : DevicePtr) (s : σ)
    (h : (B.libusb_get_device_descriptor s device).1 = LIBUSB_SUCCESS) :
    (DeviceManager.read_device_info B device s).1.vid
      = (B.libusb_get_device_descriptor s device).2.1.idVendor ∧
    (DeviceManager.read_device_info B device s).1.pid
      = (B.libusb_get_device_descriptor s device).2.1.idProduct := by
  unfold DeviceManager.read_device_info
  simp only [h, ne_eq, not_true_eq_false, if_false]
  repeat' split
  all_goals exact ⟨rfl, rfl⟩

/-- The loop of `discover_devices` appends, in order, one identity per device
whose descriptor carries the vendor id `RAZER_VID`. -/
theorem DeviceManager.discover_loop_ids (B : Bus σ) (desc : DevicePtr → DeviceDescriptor) :
    ∀ (l : List DevicePtr) (acc : List DeviceInfo) (s : σ),
      (∀ d ∈ l, ∀ s1, (B.libusb_get_device_descriptor s1 d).1 = LIBUSB_SUCCESS ∧
        (B.libusb_get_device_descriptor s1 d).2.1 = desc d) →
      (DeviceManager.discover_loop B l acc s).1.map (fun i => (i.vid, i.pid))
        = acc.map (fun i => (i.vid, i.pid))
          ++ (l.filter (fun d => decide ((desc d).idVendor = RAZER_VID))).map
              (fun d => (RAZER_VID, (desc d).idProduct)) := by
  intro l
  induction l with
  | nil => intro acc s _; simp [DeviceManager.discover_loop]
  | cons d rest ih =>
    intro acc s hdesc
    have hrest : ∀ d1 ∈ rest, ∀ s1, (B.libusb_get_device_descriptor s1 d1).1 = LIBUSB_SUCCESS ∧
        (B.libusb_get_device_descriptor s1 d1).2.1 = desc d1 :=
      fun d1 hd1 => hdesc d1 (List.mem_cons_of_mem _ hd1)
    obtain ⟨h1, h2⟩ := hdesc d (List.mem_cons_self _ _) s
    obtain ⟨h3, h4⟩ := hdesc d (List.mem_cons_self _ _) (B.libusb_get_device_descriptor s d).2.2
    obtain ⟨g1, g2⟩ := DeviceManager.read_device_info_ids B d _ h3
    rw [h4] at g1 g2
    rw [DeviceManager.discover_loop]
    simp only [h1, h2, ne_eq, not_true_eq_false, if_false]
    by_cases hv : (desc d).idVendor = RAZER_VID
    · simp only [hv, not_true_eq_false, if_false, g1, if_true]
      rw [ih _ _ hrest, List.filter_cons_of_pos (by simpa using hv)]
      simp [g1, g2, hv]
    · simp only [hv, not_false_eq_true, if_true]
      rw [ih _ _ hrest, List.filter_cons_of_neg (by simpa using hv)]

/-- Claim C21. For every list of attached devices with readable device
descriptors, `discover_devices` of an initialised manager returns, in
enumeration order, exactly one `DeviceInfo` per device whose vendor id is
`0x1532` and none for any other vendor id, each carrying that device's vendor
and product id; with one matching and one non-matching device it returns
exactly one identity. -/
theorem discover_devices_filters_vendor (B : Bus σ) (self : DeviceManager) (s : σ)
    (desc : DevicePtr → DeviceDescriptor) (hctx : self.context.isSome = true)
    (hlist : 0 ≤ (B.libusb_get_device_list s).1)
    (hdesc : ∀ d ∈ (B.libusb_get_device_list s).2.1, ∀ s1,
      (B.libusb_get_device_descriptor s1 d).1 = LIBUSB_SUCCESS ∧
      (B.libusb_get_device_descriptor s1 d).2.1 = desc d) :
    RAZER_VID = 0x1532 ∧
    (DeviceManager.discover_devices B self s).1.map (fun i => (i.vid, i.pid))
      = ((B.libusb_get_device_list s).2.1.filter
          (fun d => decide ((desc d).idVendor = RAZER_VID))).map
            (fun d => (RAZER_VID, (desc d).idProduct)) ∧
    (DeviceManager.discover_devices B self s).1.length
      = ((B.libusb_get_device_list s).2.1.filter
          (fun d => decide ((desc d).idVendor = RAZER_VID))).length ∧
    (∀ i ∈ (DeviceManager.discover_devices B self s).1, i.vid = RAZER_VID) ∧
    (∀ d1 d2, ((B.libusb_get_device_list s).2.1 = [d1, d2] ∨
        (B.libusb_get_device_list s).2.1 = [d2, d1]) →
      (desc d1).idVendor = RAZER_VID → (desc d2).idVendor ≠ RAZER_VID →
      (DeviceManager.discover_devices B self s).1.length = 1) := by
  obtain ⟨c, hc⟩ := Option.isSome_iff_exists.mp hctx
  have hmap : (DeviceManager.discover_devices B self s).1.map (fun i => (i.vid, i.pid))
      = ((B.libusb_get_device_list s).2.1.filter
          (fun d => decide ((desc d).idVendor = RAZER_VID))).map
            (fun d => (RAZER_VID, (desc d).idProduct)) := by
    unfold DeviceManager.discover_devices
    rw [hc]
    simp only [not_lt.mpr hlist, if_false]
    rw [DeviceManager.discover_loop_ids B desc _ _ _ hdesc]
    simp
  have hlen : (DeviceManager.discover_devices B self s).1.length
      = ((B.libusb_get_device_list s).2.1.filter
          (fun d => decide ((desc d).idVendor = RAZER_VID))).length := by
    have := congrArg List.length hmap
    simpa using this
  refine ⟨rfl, hmap, hlen, ?_, ?_⟩
  · intro i hi
    have hm : (i.vid, i.pid) ∈
        (DeviceManager.discover_devices B self s).1.map (fun i => (i.vid, i.pid)) :=
      List.mem_map_of_mem _ hi
    rw [hmap] at hm
    obtain ⟨d, _, hd⟩ := List.mem_map.mp hm
    exact (congrArg Prod.fst hd).symm
  · intro d1 d2 hl h1 h2
    rw [hlen]
    rcases hl with hl | hl <;> rw [hl] <;> simp [h1, h2]

/-- A fake bus with one Razer mouse and one device of another vendor: exactly
one identity, that of the mouse. -/
theorem discover_devices_filters_vendor_witness :
    (DeviceManager.discover_devices
      (fakeBus [fakeMouse 0x046d 0 "LG1", fakeMouse 0x1532 0 "PM1"]) ⟨some 1⟩ ()).1.length
        = 1 ∧
    (DeviceManager.discover_devices
      (fakeBus [fakeMouse 0x046d 0 "LG1", fakeMouse 0x1532 0 "PM1"]) ⟨some 1⟩ ()).1.map
        (fun i => (i.vid, i.pid)) = [(0x1532, 0x009A)] :=
  have t := discover_devices_filters_vendor
    (fakeBus [fakeMouse 0x046d 0 "LG1", fakeMouse 0x1532 0 "PM1"]) ⟨some 1⟩ ()
    (fun d => if d = 0 then ⟨0x046d, 0x009A, 1, 2, 3⟩ else ⟨0x1532, 0x009A, 1, 2, 3⟩)
    rfl (by decide)
    (by
      intro d hd s1
      have hd2 : d < 2 := by simpa [fakeBus] using hd
      interval_cases d <;> exact ⟨rfl, rfl⟩)
  ⟨t.2.2.2.2 1 0 (Or.inr rfl) rfl (by decide), t.2.1⟩

/-- The catalog lookup of a product id that is in the catalog returns the name
and the category of its entry. -/
theorem DeviceManager.lookup_known (e : KnownDevice) (he : e ∈ KNOWN_DEVICES) :
    DeviceManager.get_device_name e.pid = e.name ∧
    DeviceManager.get_device_type e.pid = e.type := by
  simp only [KNOWN_DEVICES, List.mem_cons, List.mem_singleton, List.not_mem_nil, or_false] at he
  rcases he with rfl | rfl | rfl | rfl | rfl | rfl | rfl | rfl | rfl | rfl | rfl | rfl | rfl
    | rfl | rfl | rfl | rfl <;> decide

/-- The catalog lookup of a product id that is not in the catalog returns the
sentinels. -/
theorem DeviceManager.lookup_unknown (p : Word) (hp : ∀ e ∈ KNOWN_DEVICES, e.pid ≠ p) :
    DeviceManager.get_device_name p = "Unknown Razer Device" ∧
    DeviceManager.get_device_type p = "unknown" := by
  have name : ∀ l : List KnownDevice, (∀ e ∈ l, e.pid ≠ p) →
      DeviceManager.get_device_name_from l p = "Unknown Razer Device" := by
    intro l
    induction l with
    | nil => intro _; rfl
    | cons d rest ih =>
      intro h
      rw [DeviceManager.get_device_name_from, if_neg (h d (List.mem_cons_self _ _))]
      exact ih (fun e he => h e (List.mem_cons_of_mem _ he))
  have type : ∀ l : List KnownDevice, (∀ e ∈ l, e.pid ≠ p) →
      DeviceManager.get_device_type_from l p = "unknown" := by
    intro l
    induction l with
    | nil => intro _; rfl
    | cons d rest ih =>
      intro h
      rw [DeviceManager.get_device_type_from, if_neg (h d (List.mem_cons_self _ _))]
      exact ih (fun e he => h e (List.mem_cons_of_mem _ he))
  exact ⟨name _ hp, type _ hp⟩

/-- The name `get_device_name` returns is never empty. -/
theorem DeviceManager.get_device_name_ne_empty (p : Word) :
    DeviceManager.get_device_name p ≠ "" := by
  have names : ∀ e ∈ KNOWN_DEVICES, e.name ≠ "" := by decide
  have loop : ∀ l : List KnownDevice, (∀ e ∈ l, e.name ≠ "") →
      DeviceManager.get_device_name_from l p ≠ "" := by
    intro l
    induction l with
    | nil =>
      intro _
      rw [DeviceManager.get_device_name_from]
      decide
    | cons d rest ih =>
      intro h
      rw [DeviceManager.get_device_name_from]
      split_ifs
      · exact h d (List.mem_cons_self _ _)
      · exact ih (fun e he => h e (List.mem_cons_of_mem _ he))
  exact loop _ names

/-- When the device descriptor is read and the device cannot be opened,
`read_device_info` fills in the defaults. -/
theorem DeviceManager.read_device_info_of_open_failed (B : Bus σ) (device : DevicePtr) (s : σ)
    (hdesc : (B.libusb_get_device_descriptor s device).1 = LIBUSB_SUCCESS)
    (hopen : (B.libusb_open (B.libusb_get_device_descriptor s device).2.2 device).1
      ≠ LIBUSB_SUCCESS) :
    (DeviceManager.read_device_info B device s).1
      = { vid := (B.libusb_get_device_descriptor s device).2.1.idVendor,
          pid := (B.libusb_get_device_descriptor s device).2.1.idProduct,
          serial := "",
          product_name := DeviceManager.get_device_name
            (B.libusb_get_device_descriptor s device).2.1.idProduct,
          manufacturer := "Razer Inc.",
          transaction_id := 0x1f } := by
  unfold DeviceManager.read_device_info
  simp only [hdesc, hopen, ne_eq, not_true_eq_false, not_false_eq_true, if_false, if_true]
  rfl

/-- When the device descriptor is read and the device opens, the product name
`read_device_info` reports is the product string it read if the device has one
and it is not empty, and the catalog lookup otherwise. -/
theorem DeviceManager.read_device_info_product_name (B : Bus σ) (device : DevicePtr) (s : σ)
    (hdesc : (B.libusb_get_device_descriptor s device).1 = LIBUSB_SUCCESS)
    (hopen : (B.libusb_open (B.libusb_get_device_descriptor s device).2.2 device).1
      = LIBUSB_SUCCESS) :
    (DeviceManager.read_device_info B device s).1.product_name
      = if (B.libusb_get_device_descriptor s device).2.1.iProduct > 0 ∧
            DeviceManager.product_string_read B device s ≠ "" then
          DeviceManager.product_string_read B device s
        else DeviceManager.get_device_name
          (B.libusb_get_device_descriptor s device).2.1.idProduct := by
  unfold DeviceManager.read_device_info DeviceManager.product_string_read
    DeviceManager.product_read_state
  simp only [hdesc, hopen, ne_eq, not_true_eq_false, if_false]
  by_cases h1 : (B.libusb_get_device_descriptor s device).2.1.iSerialNumber > 0 <;>
  by_cases h2 : (B.libusb_get_device_descriptor s device).2.1.iProduct > 0 <;>
  by_cases h3 : (B.libusb_get_device_descriptor s device).2.1.iManufacturer > 0 <;>
  simp only [h1, h2, h3, if_true, if_false, true_and, false_and] <;>
  split_ifs <;> simp_all [DeviceInfo.default]

/-- Claim C22. For every device with product id `p` whose product-name
descriptor is empty or unreadable (the device cannot be opened, it has no
product string, the read of its product string fails, or that read yields
nothing), the name of the resolved identity is the catalog entry's name when
`p` is in `KNOWN_DEVICES` and the sentinel "Unknown Razer Device" otherwise,
and `get_device_type p` is the catalog entry's category when `p` is in the
catalog and the sentinel "unknown" otherwise. The read in question is the one
`read_device_info` makes: through the handle of this device, in the state the
earlier calls on it leave. -/
theorem device_name_resolution (B : Bus σ) (device : DevicePtr) (s : σ)
    (hdesc : (B.libusb_get_device_descriptor s device).1 = LIBUSB_SUCCESS)
    (hname : (B.libusb_open (B.libusb_get_device_descriptor s device).2.2 device).1
        ≠ LIBUSB_SUCCESS ∨
      (B.libusb_get_device_descriptor s device).2.1.iProduct = 0 ∨
      (B.libusb_get_string_descriptor_ascii (DeviceManager.product_read_state B device s)
        (B.libusb_open (B.libusb_get_device_descriptor s device).2.2 device).2.1
        (B.libusb_get_device_descriptor s device).2.1.iProduct).1 ≤ 0 ∨
      DeviceManager.product_string_read B device s = "") :
    (∀ e ∈ KNOWN_DEVICES, e.pid = (B.libusb_get_device_descriptor s device).2.1.idProduct →
      (DeviceManager.read_device_info B device s).1.product_name = e.name ∧
      DeviceManager.get_device_type (B.libusb_get_device_descriptor s device).2.1.idProduct
        = e.type) ∧
    ((∀ e ∈ KNOWN_DEVICES, e.pid ≠ (B.libusb_get_device_descriptor s device).2.1.idProduct) →
      (DeviceManager.read_device_info B device s).1.product_name = "Unknown Razer Device" ∧
      DeviceManager.get_device_type (B.libusb_get_device_descriptor s device).2.1.idProduct
        = "unknown") := by
  have hn : (DeviceManager.read_device_info B device s).1.product_name
      = DeviceManager.get_device_name
        (B.libusb_get_device_descriptor s device).2.1.idProduct := by
    by_cases hopen : (B.libusb_open (B.libusb_get_device_descriptor s device).2.2 device).1
        = LIBUSB_SUCCESS
    · rw [DeviceManager.read_device_info_product_name B device s hdesc hopen]
      rcases hname with h | h | h | h
      · exact absurd hopen h
      · rw [if_neg]
        rintro ⟨hp, _⟩
        rw [h] at hp
        exact absurd hp (lt_irrefl _)
      · have he : DeviceManager.product_string_read B device s = "" := by
          unfold DeviceManager.product_string_read DeviceManager.read_string_descriptor
          simp only [gt_iff_lt, not_lt.mpr h, if_false]
        rw [if_neg (fun hh => hh.2 he)]
      · rw [if_neg (fun hh => hh.2 h)]
    · rw [DeviceManager.read_device_info_of_open_failed B device s hdesc hopen]
  rw [hn]
  constructor
  · intro e he hp
    rw [← hp]
    exact DeviceManager.lookup_known e he
  · intro hp
    exact DeviceManager.lookup_unknown _ hp

/-- A bus with a dock whose product string reads "Dock" and, behind it, a
wireless Viper that opens but exposes no product string: the Viper resolves to
its catalog name and category, the dock keeps the string it exposes. -/
theorem device_name_resolution_witness :
    ((DeviceManager.read_device_info
      (fakeBus [fakeDock "Dock", fakeMouse 0x1532 0 "PM1"]) 1 ()).1.product_name
        = "Razer Viper V3 Pro (Wireless)" ∧
      DeviceManager.get_device_type 0x009A = "mouse") ∧
    (DeviceManager.read_device_info
      (fakeBus [fakeDock "Dock", fakeMouse 0x1532 0 "PM1"]) 0 ()).1.product_name = "Dock" :=
  ⟨(device_name_resolution (fakeBus [fakeDock "Dock", fakeMouse 0x1532 0 "PM1"]) 1 () rfl
    (Or.inr (Or.inr (Or.inr (by decide))))).1
    ⟨0x009A, "Razer Viper V3 Pro (Wireless)", "mouse"⟩ (by decide) rfl, by decide⟩

/-- Claim C23, as amended. For every device that cannot be opened during
discovery, `read_device_info` still returns an identity carrying the device's
vendor id and product id; it leaves the serial empty, and it fills in the
defaults for the other two fields: the product name is the catalog lookup of
the product id, which is never empty, and the manufacturer is "Razer Inc.". -/
theorem read_device_info_unopenable (B : Bus σ) (device : DevicePtr) (s : σ)
    (hdesc : (B.libusb_get_device_descriptor s device).1 = LIBUSB_SUCCESS)
    (hopen : (B.libusb_open (B.libusb_get_device_descriptor s device).2.2 device).1
      ≠ LIBUSB_SUCCESS) :
    (DeviceManager.read_device_info B device s).1.vid
      = (B.libusb_get_device_descriptor s device).2.1.idVendor ∧
    (DeviceManager.read_device_info B device s).1.pid
      = (B.libusb_get_device_descriptor s device).2.1.idProduct ∧
    (DeviceManager.read_device_info B device s).1.serial = "" ∧
    (DeviceManager.read_device_info B device s).1.product_name
      = DeviceManager.get_device_name (B.libusb_get_device_descriptor s device).2.1.idProduct ∧
    (DeviceManager.read_device_info B device s).1.product_name ≠ "" ∧
    (DeviceManager.read_device_info B device s).1.manufacturer = "Razer Inc." := by
  rw [DeviceManager.read_device_info_of_open_failed B device s hdesc hopen]
  exact ⟨rfl, rfl, rfl, rfl, DeviceManager.get_device_name_ne_empty _, rfl⟩

/-- A wireless Viper that cannot be opened (`libusb_open` returns `-3`). -/
theorem read_device_info_unopenable_witness :
    (DeviceManager.read_device_info (fakeBus [fakeMouse 0x1532 (-3) "PM1"]) 0 ()).1.serial = "" ∧
    (DeviceManager.read_device_info (fakeBus [fakeMouse 0x1532 (-3) "PM1"]) 0 ()).1.manufacturer
      = "Razer Inc." :=
  have t := read_device_info_unopenable (fakeBus [fakeMouse 0x1532 (-3) "PM1"]) 0 () rfl
    (by decide)
  ⟨t.2.2.1, t.2.2.2.2.2⟩

/-- Claim C23, refuted as stated. A wireless Viper that cannot be opened gets a
product name and a manufacturer all the same. -/
theorem read_device_info_unopenable_fills_defaults :
    ((fakeBus [fakeMouse 0x1532 (-3) "PM1"]).libusb_open () 0).1 ≠ LIBUSB_SUCCESS ∧
    (DeviceManager.read_device_info (fakeBus [fakeMouse 0x1532 (-3) "PM1"]) 0 ()).1.product_name
      = "Razer Viper V3 Pro (Wireless)" ∧
    (DeviceManager.read_device_info (fakeBus [fakeMouse 0x1532 (-3) "PM1"]) 0 ()).1.manufacturer
      = "Razer Inc." ∧
    (DeviceManager.read_device_info (fakeBus [fakeMouse 0x1532 (-3) "PM1"]) 0 ()).1.product_name
      ≠ "" ∧
    (DeviceManager.read_device_info (fakeBus [fakeMouse 0x1532 (-3) "PM1"]) 0 ()).1.manufacturer
      ≠ "" := by
  decide

/-- The loop of `create_device` returns the session of the first device whose
identity matches. -/
theorem DeviceManager.create_loop_find (B : Bus σ) (info : DeviceInfo)
    (ident : DevicePtr → DeviceInfo) :
    ∀ (l : List DevicePtr) (s : σ),
      (∀ d ∈ l, ∀ s1, (DeviceManager.read_device_info B d s1).1 = ident d) →
      (DeviceManager.create_loop B info l s).1
        = (l.find? (fun d => decide ((ident d).SameTriple info))).map
            (fun d => RazerDevice.new d info) := by
  intro l
  induction l with
  | nil => intro s _; rfl
  | cons d rest ih =>
    intro s h
    have hd := h d (List.mem_cons_self _ _) s
    rw [DeviceManager.create_loop]
    simp only [hd]
    by_cases hm : (ident d).SameTriple info
    · have hm1 := hm
      unfold DeviceInfo.SameTriple at hm1
      rw [if_pos hm1, List.find?_cons_of_pos _ (by simpa using hm)]
      rfl
    · have hm1 := hm
      unfold DeviceInfo.SameTriple at hm1
      rw [if_neg hm1, List.find?_cons_of_neg _ (by simpa using hm)]
      exact ih _ (fun d1 hd1 => h d1 (List.mem_cons_of_mem _ hd1))

/-- Claim C24, as amended. `create_device info` of an initialised manager binds
a Closed session, carrying `info`, to the first enumerated device whose
(vendor id, product id, serial) triple as `read_device_info` reads it equals
that of `info`, and returns nothing when no device matches; when `info.serial`
is empty the serial is still compared, so only a device whose serial reads as
empty is matched. -/
theorem create_device_matches_triple (B : Bus σ) (self : DeviceManager) (info : DeviceInfo)
    (s : σ) (ident : DevicePtr → DeviceInfo) (hctx : self.context.isSome = true)
    (hlist : 0 ≤ (B.libusb_get_device_list s).1)
    (hident : ∀ d ∈ (B.libusb_get_device_list s).2.1, ∀ s1,
      (DeviceManager.read_device_info B d s1).1 = ident d) :
    (DeviceManager.create_device B self info s).1
      = ((B.libusb_get_device_list s).2.1.find?
          (fun d => decide ((ident d).SameTriple info))).map
            (fun d => RazerDevice.new d info) ∧
    ((∀ d ∈ (B.libusb_get_device_list s).2.1, ¬ (ident d).SameTriple info) →
      (DeviceManager.create_device B self info s).1 = none) ∧
    (∀ dev, (DeviceManager.create_device B self info s).1 = some dev →
      (ident dev.device).SameTriple info ∧ dev.device_info = info ∧ dev.is_open = false ∧
      ∃ before after, (B.libusb_get_device_list s).2.1 = before ++ dev.device :: after ∧
        ∀ d ∈ before, ¬ (ident d).SameTriple info) ∧
    (info.serial = "" → ∀ dev, (DeviceManager.create_device B self info s).1 = some dev →
      (ident dev.device).serial = "") := by
  obtain ⟨c, hc⟩ := Option.isSome_iff_exists.mp hctx
  have hfind : (DeviceManager.create_device B self info s).1
      = ((B.libusb_get_device_list s).2.1.find?
          (fun d => decide ((ident d).SameTriple info))).map
            (fun d => RazerDevice.new d info) := by
    unfold DeviceManager.create_device
    rw [hc]
    simp only [not_lt.mpr hlist, if_false]
    exact DeviceManager.create_loop_find B info ident _ _ hident
  have hsome : ∀ dev, (DeviceManager.create_device B self info s).1 = some dev →
      (ident dev.device).SameTriple info ∧ dev.device_info = info ∧ dev.is_open = false ∧
      ∃ before after, (B.libusb_get_device_list s).2.1 = before ++ dev.device :: after ∧
        ∀ d ∈ before, ¬ (ident d).SameTriple info := by
    intro dev hdev
    rw [hfind] at hdev
    obtain ⟨d, hd, rfl⟩ := Option.map_eq_some'.mp hdev
    obtain ⟨hp, before, after, hl, hb⟩ := List.find?_eq_some.mp hd
    refine ⟨by simpa using hp, rfl, rfl, before, after, hl, ?_⟩
    intro d1 hd1
    simpa using hb d1 hd1
  refine ⟨hfind, ?_, hsome, ?_⟩
  · intro hno
    rw [hfind, Option.map_eq_none', List.find?_eq_none]
    intro d hd
    simpa using hno d hd
  · intro hs dev hdev
    rw [(hsome dev hdev).1.2.2, hs]

/-- Two wireless Vipers with serials "PM1" and "PM2": the identity with serial
"PM2" is bound to the second one. -/
theorem create_device_matches_triple_witness :
    (DeviceManager.create_device
      (fakeBus [fakeMouse 0x1532 0 "PM1", fakeMouse 0x1532 0 "PM2"]) ⟨some 1⟩
      { DeviceInfo.default with vid := 0x1532, pid := 0x009A, serial := "PM2" } ()).1
      = some (RazerDevice.new 1
          { DeviceInfo.default with vid := 0x1532, pid := 0x009A, serial := "PM2" }) :=
  (create_device_matches_triple
    (fakeBus [fakeMouse 0x1532 0 "PM1", fakeMouse 0x1532 0 "PM2"]) ⟨some 1⟩
    { DeviceInfo.default with vid := 0x1532, pid := 0x009A, serial := "PM2" } ()
    (fun d => (DeviceManager.read_device_info
      (fakeBus [fakeMouse 0x1532 0 "PM1", fakeMouse 0x1532 0 "PM2"]) d ()).1)
    rfl (by decide) (fun _ _ _ => rfl)).1

/-- Claim C24, refuted as stated. The only attached device has the vendor id
and the product id of the requested identity and the serial "PM1"; the
requested identity has an empty serial, and `create_device` returns nothing. -/
theorem create_device_empty_serial_no_match :
    (DeviceManager.read_device_info (fakeBus [fakeMouse 0x1532 0 "PM1"]) 0 ()).1.vid = 0x1532 ∧
    (DeviceManager.read_device_info (fakeBus [fakeMouse 0x1532 0 "PM1"]) 0 ()).1.pid = 0x009A ∧
    (DeviceManager.create_device (fakeBus [fakeMouse 0x1532 0 "PM1"]) ⟨some 1⟩
      { DeviceInfo.default with vid := 0x1532, pid := 0x009A, serial := "" } ()).1.isNone
        = true := by
  decide

end DiscoveryTheorems

/-! ## Tray texts -/

/-- Claim C25, where the code departs from it. The placeholder
`BatteryStatus()` stored at discovery is invalid and holds percentage 0; for
every tray state whose first stored status is that placeholder the tooltip
reads "<name>: 0%" (followed by the count of further devices), and the menu entry of every device with that placeholder
reads "<name> - 0%". So it is for a tray whose only device, a wireless Viper,
cannot be opened: after discovery and a refresh the stored status is still the
placeholder and both texts show 0 %. -/
theorem tray_presents_invalid_status_as_zero :
    BatteryStatus.default.is_valid = false ∧
    (∀ (first : RazerDevice) (others : List RazerDevice) (rest : List BatteryStatus),
      TrayApp.generate_tooltip ⟨first :: others, BatteryStatus.default :: rest⟩
        = if others.length = 0 then TrayApp.shown_name first ++ ": " ++ "0" ++ "%"
          else TrayApp.shown_name first ++ ": " ++ "0" ++ "%" ++ "\n+"
            ++ toString others.length ++ " more device(s)") ∧
    (∀ device : RazerDevice,
      TrayApp.menu_entry device BatteryStatus.default
        = TrayApp.shown_name device ++ " - " ++ "0" ++ "%") ∧
    (TrayApp.refresh_battery_status (stubDevice (-3) 0 0 0)
      (TrayApp.discover_devices (fakeBus [fakeMouse 0x1532 (-3) "PM1"]) ⟨some 1⟩ ⟨[], []⟩ ()).1
      ⟨(), []⟩).1.battery_statuses = [BatteryStatus.default] ∧
    (TrayApp.refresh_battery_status (stubDevice (-3) 0 0 0)
      (TrayApp.discover_devices (fakeBus [fakeMouse 0x1532 (-3) "PM1"]) ⟨some 1⟩ ⟨[], []⟩ ()).1
      ⟨(), []⟩).1.generate_tooltip = "Razer Viper V3 Pro (Wireless): 0%" ∧
    (TrayApp.refresh_battery_status (stubDevice (-3) 0 0 0)
      (TrayApp.discover_devices (fakeBus [fakeMouse 0x1532 (-3) "PM1"]) ⟨some 1⟩ ⟨[], []⟩ ()).1
      ⟨(), []⟩).1.menu_device_entries = ["Razer Viper V3 Pro (Wireless) - 0%"] := by
  have hz : toString BatteryStatus.default.percentage = "0" := by decide
  refine ⟨rfl, ?_, ?_, by decide, by decide, by decide⟩
  · intro first others rest
    have hc : BatteryStatus.default.is_charging = false := rfl
    cases others with
    | nil =>
      simp only [TrayApp.generate_tooltip, hz, hc, List.length_nil, List.length_singleton,
        gt_iff_lt, lt_self_iff_false, if_true, if_false, Bool.false_eq_true]
    | cons d ds =>
      have h1 : (first :: d :: ds).length > 1 := by simp
      have h2 : ¬ (d :: ds).length = 0 := by simp
      have h3 : (first :: d :: ds).length - 1 = (d :: ds).length := by simp
      simp only [TrayApp.generate_tooltip, h1, h2, h3, hz, hc, if_true, if_false,
        Bool.false_eq_true]
  · intro device
    have hc : BatteryStatus.default.is_charging = false := rfl
    simp only [TrayApp.menu_entry, hz, hc, if_false, Bool.false_eq_true]

end razer
